import Mathlib

/-!
# Mini-Jira admin front-end: request gateway and resource controllers

A shallow embedding of `Frontend/src/components/mini_jira_frontend.jsx`:
the `useApi` hook (the request gateway) and the event handlers of
`ChatPanel`, `UsersPanel` and `TicketsPanel`, together with the handful of
JavaScript built-ins they call (`String.prototype.trim`, `Number` with its
rounding to a double, `JSON.stringify` with `Number::toString`,
`encodeURIComponent`, truthiness).

React state is modelled as a record; a handler reads the values captured by
the render in which it was created (its argument) and produces the record
after all of its state setters have run.  An updater function handed to a
setter runs when React renders, after the handler has left its `try`.  The network is a deterministic
oracle from the requests sent so far and the current request to the outcome
of `fetch`.
-/

namespace MiniJira

/-! ## JavaScript values -/

/-- A JavaScript number, that is an IEEE 754 double: NaN, the two infinities,
or the finite value `(-1)^neg * m * 2^e`.  The values that arise are in
canonical form: `m = 0` and `e = 0`, or `2^52 ≤ m < 2^53` with
`-1074 ≤ e ≤ 971`, or `0 < m < 2^52` with `e = -1074`. -/
inductive JsNum where
  | nan
  | inf (neg : Bool)
  | fin (neg : Bool) (m : Nat) (e : Int)
  deriving DecidableEq

/-- Values produced by `JSON.parse` and by the object literals of the source. -/
inductive Json where
  | null
  | bool (b : Bool)
  | num (n : JsNum)
  | str (s : String)
  | arr (xs : List Json)
  | obj (kvs : List (String × Json))

/-- Kinds of the built-in error objects that `fetch`, `res.json()`, a property
read on `null` and `new Error(..)` produce. -/
inductive ErrorKind where
  | Error
  | TypeError
  | SyntaxError
  | AbortError
  deriving DecidableEq

/-- The `name` property of an error object. -/
def ErrorKind.name : ErrorKind → String
  | .Error => "Error"
  | .TypeError => "TypeError"
  | .SyntaxError => "SyntaxError"
  | .AbortError => "AbortError"

/-- A thrown error object: its kind and its `message`. -/
structure Thrown where
  kind : ErrorKind
  message : String
  deriving DecidableEq

/-- `Error.prototype.toString`: the name when the message is empty, the message
when the name is empty, otherwise `name: message`. -/
def Thrown.toString (e : Thrown) : String :=
  if e.kind.name = "" then e.message
  else if e.message = "" then e.kind.name
  else e.kind.name ++ ": " ++ e.message

/-- The expression `e.message || String(e)`. -/
def Thrown.text (e : Thrown) : String :=
  if e.message ≠ "" then e.message else e.toString

/-- JavaScript `WhiteSpace` and `LineTerminator` code points, the characters
that `String.prototype.trim` and `Number` strip. -/
def isJsWhiteSpace (c : Char) : Bool :=
  let n := c.toNat
  n = 0x09 || n = 0x0A || n = 0x0B || n = 0x0C || n = 0x0D || n = 0x20 ||
  n = 0xA0 || n = 0x1680 || (0x2000 ≤ n && n ≤ 0x200A) || n = 0x2028 ||
  n = 0x2029 || n = 0x202F || n = 0x205F || n = 0x3000 || n = 0xFEFF

/-- Characters of a string with leading and trailing white space removed. -/
def jsTrimChars (cs : List Char) : List Char :=
  ((cs.dropWhile isJsWhiteSpace).reverse.dropWhile isJsWhiteSpace).reverse

/-- `String.prototype.trim`. -/
def jsTrim (s : String) : String := String.mk (jsTrimChars s.data)

/-- `ToBoolean` on a number: false for NaN and for zero. -/
def JsNum.truthy : JsNum → Bool
  | .nan => false
  | .inf _ => true
  | .fin _ m _ => m != 0

/-- `ToBoolean` on a value. -/
def Json.truthy : Json → Bool
  | .null => false
  | .bool b => b
  | .num n => n.truthy
  | .str s => s != ""
  | .arr _ => true
  | .obj _ => true

/-- `ToBoolean` on the result of a property read (`none` is `undefined`). -/
def truthy? : Option Json → Bool
  | none => false
  | some v => v.truthy

/-- Whether a number is finite (`Number.isFinite`). -/
def JsNum.isFinite : JsNum → Bool
  | .fin _ _ _ => true
  | _ => false

/-- Whether a number is an integer (`Number.isInteger`). -/
def JsNum.isInteger : JsNum → Bool
  | .fin _ m e => decide (0 ≤ e) || m % 2 ^ (-e).toNat == 0
  | _ => false

/-- The integer a number is, when it is one (both zeros are the integer 0). -/
def JsNum.toInt? : JsNum → Option Int
  | .fin neg m e =>
    if 0 ≤ e then
      some (if neg then -((m * 2 ^ e.toNat : Nat) : Int) else ((m * 2 ^ e.toNat : Nat) : Int))
    else if m % 2 ^ (-e).toNat = 0 then
      some (if neg then -((m / 2 ^ (-e).toNat : Nat) : Int)
        else ((m / 2 ^ (-e).toNat : Nat) : Int))
    else none
  | _ => none

/-! ## Rounding to a double -/

/-- Position of the highest set bit of `n`, halving at most `fuel` times. -/
def log2Fuel : Nat → Nat → Nat
  | 0, _ => 0
  | fuel + 1, n => if n < 2 then 0 else log2Fuel fuel (n / 2) + 1

/-- The `l` with `2^l ≤ n < 2^(l+1)`, for `n > 0`. -/
def log2Floor (n : Nat) : Nat := log2Fuel n n

/-- The `f` with `2^f ≤ a / b < 2^(f+1)`, for `a, b > 0`: the difference of the
bit positions, or one less. -/
def floorLog2Ratio (a b : Nat) : Int :=
  let t : Int := (log2Floor a : Int) - (log2Floor b : Int)
  if 0 ≤ t then (if b * 2 ^ t.toNat ≤ a then t else t - 1)
  else (if b ≤ a * 2 ^ (-t).toNat then t else t - 1)

/-- Round the quotient `num / den` to the nearest integer, ties to even, and
take it as the significand at binary exponent `e`: a carry to `2^53` moves to
the next exponent, an exponent above 971 overflows (`none`), and a zero
significand is the zero `(0, 0)`. -/
def roundQuotient (num den : Nat) (e : Int) : Option (Nat × Int) :=
  let q := num / den
  let r := num % den
  let m := if den < 2 * r ∨ (2 * r = den ∧ q % 2 = 1) then q + 1 else q
  let m1 := if m = 2 ^ 53 then 2 ^ 52 else m
  let e1 := if m = 2 ^ 53 then e + 1 else e
  if 971 < e1 then none
  else if m1 = 0 then some (0, 0)
  else some (m1, e1)

/-- The double nearest to the rational `a / b` (`b > 0`), ties to even: its
significand and binary exponent, or `none` when the magnitude overflows.  The
exponent `e` is the one at which `a / (b * 2^e)` has 53 bits, but not below
`-1074` (the subnormal range). -/
def roundRatio (a b : Nat) : Option (Nat × Int) :=
  if a = 0 then some (0, 0)
  else
    let e : Int := max (floorLog2Ratio a b - 52) (-1074)
    if 0 ≤ e then roundQuotient a (b * 2 ^ e.toNat) e
    else roundQuotient (a * 2 ^ (-e).toNat) b e

/-- The number for the real value `(-1)^neg * a / b`. -/
def JsNum.ofRatio (neg : Bool) (a b : Nat) : JsNum :=
  match roundRatio a b with
  | none => .inf neg
  | some (m, e) => .fin neg m e

/-- The number for the real value `(-1)^neg * mant * 10^exp`. -/
def JsNum.ofDecimal (neg : Bool) (mant : Nat) (exp : Int) : JsNum :=
  if 0 ≤ exp then JsNum.ofRatio neg (mant * 10 ^ exp.toNat) 1
  else JsNum.ofRatio neg mant (10 ^ (-exp).toNat)

/-- The number for a natural number. -/
def JsNum.ofNat (n : Nat) : JsNum := JsNum.ofRatio false n 1

/-! ## `Number::toString` and `JSON.stringify` -/

/-- Decimal digits of a natural number, most significant first. -/
def natDigits (n : Nat) : List Char := Nat.toDigits 10 n

/-- A run of `n` zero characters. -/
def zeros (n : Nat) : List Char := List.replicate n '0'

/-- Least `j` from `j` on with `b ≤ a * 10^j`, trying at most `fuel` values. -/
def leadShift : Nat → Nat → Nat → Nat → Nat
  | 0, _, _, j => j
  | fuel + 1, a, b, j => if b ≤ a * 10 ^ j then j else leadShift fuel a b (j + 1)

/-- The `n` with `10^(n-1) ≤ a / b < 10^n`, for `a, b > 0`. -/
def decimalPoint (a b : Nat) : Int :=
  if b ≤ a then ((natDigits (a / b)).length : Int)
  else 1 - (leadShift b a b 1 : Int)

/-- The shortest decimal that reads back as the double `m * 2^e = a / b`, as
`Number::toString` chooses it: for `k = 1, 2, ..` the two `k`-digit decimals
around `a / b` are tried; the first `k` at which one of them rounds to the
double wins, the nearer of the two (the even one on a tie) if both do.  The
result is the digits as a number and the power of ten that scales them. -/
def shortestFrom (m : Nat) (e : Int) (a b : Nat) (n0 : Int) : Nat → Nat → Nat × Int
  | 0, k =>
    let num := if n0 ≤ k then a * 10 ^ ((k : Int) - n0).toNat else a
    let den := if n0 ≤ k then b else b * 10 ^ (n0 - k).toNat
    (num / den, n0 - k)
  | fuel + 1, k =>
    let num := if n0 ≤ k then a * 10 ^ ((k : Int) - n0).toNat else a
    let den := if n0 ≤ k then b else b * 10 ^ (n0 - k).toNat
    let lo := num / den
    let r := num % den
    let okLo := decide (JsNum.ofDecimal false lo (n0 - k) = .fin false m e)
    let okHi := decide (JsNum.ofDecimal false (lo + 1) (n0 - k) = .fin false m e)
    if okLo && okHi then
      (if 2 * r < den ∨ (2 * r = den ∧ lo % 2 = 0) then lo else lo + 1, n0 - k)
    else if okLo then (lo, n0 - k)
    else if okHi then (lo + 1, n0 - k)
    else shortestFrom m e a b n0 fuel (k + 1)

/-- `Number::toString` for the finite non-zero magnitude `m * 2^e`: with the
`k` shortest digits `ds` and the decimal point after position `n`, plain
integer notation for `k ≤ n ≤ 21`, a decimal point inside for `0 < n ≤ 21`,
leading `0.` for `-6 < n ≤ 0`, exponent notation otherwise. -/
def magnitudeToChars (m : Nat) (e : Int) : List Char :=
  let a := if 0 ≤ e then m * 2 ^ e.toNat else m
  let b := if 0 ≤ e then 1 else 2 ^ (-e).toNat
  let sx := shortestFrom m e a b (decimalPoint a b) 17 1
  let all := natDigits sx.1
  let ds := (all.reverse.dropWhile (· == '0')).reverse
  let k : Int := ds.length
  let n : Int := sx.2 + (all.length : Int)
  if k ≤ n ∧ n ≤ 21 then ds ++ zeros (n - k).toNat
  else if 0 < n ∧ n ≤ 21 then ds.take n.toNat ++ '.' :: ds.drop n.toNat
  else if -6 < n ∧ n ≤ 0 then '0' :: '.' :: (zeros (-n).toNat ++ ds)
  else
    let x := n - 1
    let sign := if x < 0 then '-' else '+'
    let tail := 'e' :: sign :: natDigits x.natAbs
    match ds with
    | [] => tail
    | [d] => d :: tail
    | d :: rest => d :: '.' :: (rest ++ tail)

/-- `Number::toString`. -/
def JsNum.toChars : JsNum → List Char
  | .nan => "NaN".data
  | .inf neg => if neg then "-Infinity".data else "Infinity".data
  | .fin neg m e =>
    if m = 0 then ['0']
    else if neg then '-' :: magnitudeToChars m e
    else magnitudeToChars m e

/-- Hexadecimal digit (lower case) of a value below 16. -/
def hexDigitLower (n : Nat) : Char := Nat.digitChar n

/-- Hexadecimal digit (upper case) of a value below 16. -/
def hexDigitUpper (n : Nat) : Char := (Nat.digitChar n).toUpper

/-- One code point inside `QuoteJSONString`. -/
def quoteJSONChar (c : Char) : List Char :=
  let n := c.toNat
  if n = 0x08 then ['\\', 'b']
  else if n = 0x09 then ['\\', 't']
  else if n = 0x0A then ['\\', 'n']
  else if n = 0x0C then ['\\', 'f']
  else if n = 0x0D then ['\\', 'r']
  else if c = '"' then ['\\', '"']
  else if c = '\\' then ['\\', '\\']
  else if n < 0x20 then ['\\', 'u', '0', '0', hexDigitLower (n / 16), hexDigitLower (n % 16)]
  else [c]

/-- `QuoteJSONString`. -/
def quoteJSONString (s : String) : List Char :=
  '"' :: (s.data.flatMap quoteJSONChar ++ ['"'])

mutual
/-- Characters of `JSON.stringify(v)` (no indentation, no replacer). -/
def Json.stringifyChars : Json → List Char
  | .null => "null".data
  | .bool b => if b then "true".data else "false".data
  | .num n => if n.isFinite then n.toChars else "null".data
  | .str s => quoteJSONString s
  | .arr xs => '[' :: (stringifyElems xs ++ [']'])
  | .obj kvs => '\x7b' :: (stringifyFields kvs ++ ['\x7d'])
/-- Array elements separated by commas. -/
def stringifyElems : List Json → List Char
  | [] => []
  | [x] => x.stringifyChars
  | x :: y :: rest => x.stringifyChars ++ ',' :: stringifyElems (y :: rest)
/-- Object members `"key":value` separated by commas. -/
def stringifyFields : List (String × Json) → List Char
  | [] => []
  | [(k, v)] => quoteJSONString k ++ ':' :: v.stringifyChars
  | (k, v) :: y :: rest =>
    quoteJSONString k ++ ':' :: (v.stringifyChars ++ ',' :: stringifyFields (y :: rest))
end

/-- `JSON.stringify`. -/
def JSON.stringify (v : Json) : String := String.mk v.stringifyChars

/-! ## `Number(string)` -/

/-- Value of a digit character in bases up to 16. -/
def digitValue (c : Char) : Nat :=
  if '0' ≤ c ∧ c ≤ '9' then c.toNat - '0'.toNat
  else if 'a' ≤ c ∧ c ≤ 'f' then c.toNat - 'a'.toNat + 10
  else if 'A' ≤ c ∧ c ≤ 'F' then c.toNat - 'A'.toNat + 10
  else 0

/-- Whether a character is a digit of the given base. -/
def isDigitOf (base : Nat) (c : Char) : Bool :=
  (('0' ≤ c ∧ c ≤ '9') ∨ ('a' ≤ c ∧ c ≤ 'f') ∨ ('A' ≤ c ∧ c ≤ 'F')) && digitValue c < base

/-- Value of a digit string in a base. -/
def digitsToNat (base : Nat) (cs : List Char) : Nat :=
  cs.foldl (fun acc c => acc * base + digitValue c) 0

/-- `ExponentPart_opt` at the end of a literal: nothing, or `e`/`E`, an optional
sign and at least one decimal digit. -/
def parseExponent (cs : List Char) : Option Int :=
  match cs with
  | [] => some 0
  | c :: rest =>
    if c = 'e' ∨ c = 'E' then
      match rest with
      | '+' :: ds => if ds ≠ [] ∧ ds.all (isDigitOf 10) then some (digitsToNat 10 ds) else none
      | '-' :: ds => if ds ≠ [] ∧ ds.all (isDigitOf 10) then some (-(digitsToNat 10 ds : Int)) else none
      | ds => if ds ≠ [] ∧ ds.all (isDigitOf 10) then some (digitsToNat 10 ds) else none
    else none

/-- What a string is as a `StringNumericLiteral`: not one, an infinity, or
the real value `(-1)^neg * mant * 10^exp`. -/
inductive NumericLiteral where
  | invalid
  | infinity (neg : Bool)
  | decimal (neg : Bool) (mant : Nat) (exp : Int)
  deriving DecidableEq

/-- The integer a literal denotes, when its value is an integer. -/
def NumericLiteral.toInt? : NumericLiteral → Option Int
  | .decimal neg mant exp =>
    if 0 ≤ exp then
      some (if neg then -((mant * 10 ^ exp.toNat : Nat) : Int)
        else ((mant * 10 ^ exp.toNat : Nat) : Int))
    else if mant % 10 ^ (-exp).toNat = 0 then
      some (if neg then -((mant / 10 ^ (-exp).toNat : Nat) : Int)
        else ((mant / 10 ^ (-exp).toNat : Nat) : Int))
    else none
  | _ => none

/-- `StrUnsignedDecimalLiteral`: `Infinity`, or digits with an optional fraction
and exponent (at least one digit before or after the point). -/
def parseUnsignedDecimal (neg : Bool) (cs : List Char) : NumericLiteral :=
  if cs = "Infinity".data then .infinity neg
  else
    let ip := cs.takeWhile (isDigitOf 10)
    let r1 := cs.dropWhile (isDigitOf 10)
    let fp := match r1 with
      | '.' :: r => r.takeWhile (isDigitOf 10)
      | _ => []
    let r2 := match r1 with
      | '.' :: r => r.dropWhile (isDigitOf 10)
      | _ => r1
    if ip = [] ∧ fp = [] then .invalid
    else
      match parseExponent r2 with
      | none => .invalid
      | some e => .decimal neg (digitsToNat 10 (ip ++ fp)) (e - (fp.length : Int))

/-- A `0x`, `0o` or `0b` literal: its digits in the given base. -/
def parseRadix (base : Nat) (ds : List Char) : NumericLiteral :=
  if ds ≠ [] ∧ ds.all (isDigitOf base) then .decimal false (digitsToNat base ds) 0
  else .invalid

/-- The grammar of `StringToNumber` on the trimmed characters; the empty
string is zero. -/
def parseNumeric (cs : List Char) : NumericLiteral :=
  match cs with
  | [] => .decimal false 0 0
  | '0' :: 'x' :: ds => parseRadix 16 ds
  | '0' :: 'X' :: ds => parseRadix 16 ds
  | '0' :: 'o' :: ds => parseRadix 8 ds
  | '0' :: 'O' :: ds => parseRadix 8 ds
  | '0' :: 'b' :: ds => parseRadix 2 ds
  | '0' :: 'B' :: ds => parseRadix 2 ds
  | '+' :: ds => parseUnsignedDecimal false ds
  | '-' :: ds => parseUnsignedDecimal true ds
  | ds => parseUnsignedDecimal false ds

/-- The number a literal rounds to; NaN when the string is no literal. -/
def JsNum.ofLiteral : NumericLiteral → JsNum
  | .invalid => .nan
  | .infinity neg => .inf neg
  | .decimal neg mant exp => JsNum.ofDecimal neg mant exp

/-- `Number(s)` for a string `s`: trim, read as a literal, round. -/
def Number (s : String) : JsNum := JsNum.ofLiteral (parseNumeric (jsTrimChars s.data))

/-! ## `encodeURIComponent` -/

/-- UTF-8 bytes of a code point. -/
def utf8Bytes (n : Nat) : List Nat :=
  if n < 0x80 then [n]
  else if n < 0x800 then [0xC0 + n / 64, 0x80 + n % 64]
  else if n < 0x10000 then [0xE0 + n / 4096, 0x80 + n / 64 % 64, 0x80 + n % 64]
  else [0xF0 + n / 262144, 0x80 + n / 4096 % 64, 0x80 + n / 64 % 64, 0x80 + n % 64]

/-- Characters that `encodeURIComponent` leaves alone: ASCII letters, digits and
`- _ . ! ~ * ' ( )`. -/
def isUriUnreserved (c : Char) : Bool :=
  c.isAlphanum || c = '-' || c = '_' || c = '.' || c = '!' || c = '~' || c = '*' ||
  c.toNat = 0x27 || c = '(' || c = ')'

/-- One code point under `encodeURIComponent`. -/
def encodeURIChar (c : Char) : List Char :=
  if isUriUnreserved c then [c]
  else (utf8Bytes c.toNat).flatMap (fun b => ['%', hexDigitUpper (b / 16), hexDigitUpper (b % 16)])

/-- `encodeURIComponent`. -/
def encodeURIComponent (s : String) : String := String.mk (s.data.flatMap encodeURIChar)

/-! ## Property reads -/

/-- The read `v.key` for the keys this program reads (`reply`, `users`,
`tickets`, none of which a prototype defines): a `TypeError` on `null`, the
member of an object, `undefined` (`none`) otherwise. -/
def Json.getProp (v : Json) (key : String) : Except Thrown (Option Json) :=
  match v with
  | .null => .error ⟨.TypeError, "Cannot read properties of null (reading \x27" ++ key ++ "\x27)"⟩
  | .obj kvs => .ok (kvs.lookup key)
  | _ => .ok none

/-! ## The network -/

/-- One call of `fetch`: the URL and the `method` and `body` members of the
options.  Every call carries the same `Content-Type: application/json` header
and `credentials: "include"`, which are therefore not recorded. -/
structure Request where
  url : String
  method : Option String
  body : Option String
  deriving DecidableEq

/-- The `options` argument of `api`, as its callers build it. -/
structure Options where
  method : Option String := none
  body : Option String := none
  deriving DecidableEq

/-- A `Response`: status line and what `res.json()` settles to. -/
structure Response where
  status : Nat
  statusText : String
  json : Except Thrown Json

/-- `Response.ok`: the status is in the range 200 to 299. -/
def Response.ok (res : Response) : Bool := 200 ≤ res.status && res.status ≤ 299

/-- What `await fetch(..)` does: rejects with an error or yields a response. -/
inductive FetchOutcome where
  | rejected (e : Thrown)
  | responded (res : Response)

/-- The surroundings of the component: the configured base URL and the
behaviour of `fetch`, which may depend on the requests sent before. -/
structure Env where
  BASE_URL : String
  fetch : List Request → Request → FetchOutcome

/-! ## `useApi` -/

/-- State of one `useApi` hook: `loading`, `error`, and (as instrumentation)
the `fetch` calls made through it so far. -/
structure ApiState where
  loading : Bool
  error : String
  calls : List Request
  deriving DecidableEq

/-- The request that `api(path, options)` hands to `fetch`. -/
def apiRequest (env : Env) (path : String) (options : Options) : Request :=
  { url := (if env.BASE_URL ≠ "" then env.BASE_URL else "") ++ path,
    method := options.method, body := options.body }

/-- State when `api` reaches `fetch`: after `setError("")`, `setLoading(true)`. -/
def apiBegin (s : ApiState) : ApiState :=
  { { s with error := "" } with loading := true }

/-- The `try` block of `api` once `fetch` has settled: a rejection is thrown
on, a response that is not `ok` throws `new Error(status + " " + statusText)`
without reading the body, otherwise the result of `res.json()`. -/
def apiTry (outcome : FetchOutcome) : Except Thrown Json :=
  match outcome with
  | .rejected e => .error e
  | .responded res =>
    if !res.ok then .error ⟨.Error, toString res.status ++ " " ++ res.statusText⟩
    else res.json

/-- The function `api(path, options)` of `useApi`: the state after the call
has settled and the value it returns or the error it throws. -/
def api (env : Env) (s : ApiState) (path : String) (options : Options := {}) :
    ApiState × Except Thrown Json :=
  let s1 := apiBegin s
  let req := apiRequest env path options
  let s2 := { s1 with calls := s1.calls ++ [req] }
  match apiTry (env.fetch s1.calls req) with
  | .ok data => ({ s2 with loading := false }, .ok data)
  | .error e =>
    let s3 := { s2 with error := e.text }
    ({ s3 with loading := false }, .error e)

/-! ## `ChatPanel` -/

/-- The `role` of a chat message. -/
inductive Role where
  | user
  | assistant
  deriving DecidableEq

/-- One entry of the transcript. -/
structure ChatMessage where
  role : Role
  text : Json

/-- State of `ChatPanel`, with the error (if any) that a queued state updater
threw when React ran it: the render then fails and, with no error boundary in
the file, the panel is unmounted. -/
structure ChatState where
  hook : ApiState
  input : String
  messages : List ChatMessage
  renderError : Option Thrown

/-- The state `ChatPanel` starts in. -/
def ChatPanel.init : ChatState :=
  { hook := { loading := false, error := "", calls := [] },
    input := "",
    renderError := none,
    messages := [⟨.assistant,
      .str "Hi! I can manage your mini‑Jira. Try: \x27create ticket Login for Alice\x27"⟩] }

/-- The text of the message that the `catch` of `send` appends, from the value
of `error` it reads. -/
def ChatPanel.failureText (error : String) : String :=
  "⚠️ " ++ (if error ≠ "" then error else "Failed to reach backend")

/-- The options of the call in `send`: a POST of the message text. -/
def ChatPanel.sendOptions (text : Json) : Options :=
  { method := some "POST", body := some (JSON.stringify (.obj [("message", text)])) }

/-- The handler `send` of `ChatPanel`.  `s` is the state of the render that
created the handler: `input` and `error` are read from it, also inside the
`catch`, where `error` is still the captured value.  On success the entry is
built by the updater handed to `setMessages`, which React runs after `send`
has left its `try`: the read `data.reply` happens there, so an error it throws
is a render error and no entry is appended. -/
def ChatPanel.send (env : Env) (s : ChatState) : ChatState :=
  if jsTrim s.input = "" then s
  else
    let userMsg : ChatMessage := ⟨.user, .str (jsTrim s.input)⟩
    let s1 := { s with messages := s.messages ++ [userMsg] }
    let s2 := { s1 with input := "" }
    match api env s2.hook "/api/chat" (ChatPanel.sendOptions userMsg.text) with
    | (h, .error _) =>
      let s3 := { s2 with hook := h }
      { s3 with messages := s3.messages ++
          [⟨.assistant, .str (ChatPanel.failureText s.hook.error)⟩] }
    | (h, .ok data) =>
      let s3 := { s2 with hook := h }
      match data.getProp "reply" with
      | .error e => { s3 with renderError := some e }
      | .ok reply =>
        let text := if truthy? reply then reply.getD .null else .str (JSON.stringify data)
        { s3 with messages := s3.messages ++ [⟨.assistant, text⟩] }

/-! ## `UsersPanel` -/

/-- The form of `UsersPanel`. -/
structure UserForm where
  user_id : String
  name : String
  deriving DecidableEq

/-- State of `UsersPanel`. -/
structure UsersState where
  hook : ApiState
  users : Json
  form : UserForm

/-- The state `UsersPanel` starts in. -/
def UsersPanel.init : UsersState :=
  { hook := { loading := false, error := "", calls := [] },
    users := .arr [], form := ⟨"", ""⟩ }

/-- The expression `v || []` for a property read `v`. -/
def orEmptyArray (v : Option Json) : Json :=
  if truthy? v then v.getD .null else .arr []

/-- The function `load` of `UsersPanel`; the `catch` swallows every error. -/
def UsersPanel.load (env : Env) (s : UsersState) : UsersState :=
  match api env s.hook "/api/users" with
  | (h, .error _) => { s with hook := h }
  | (h, .ok data) =>
    let s1 := { s with hook := h }
    match data.getProp "users" with
    | .error _ => s1
    | .ok v => { s1 with users := orEmptyArray v }

/-- The options of the call in `add`: a POST of the form, `user_id` passed
through `Number`. -/
def UsersPanel.addOptions (form : UserForm) : Options :=
  { method := some "POST",
    body := some (JSON.stringify
      (.obj [("user_id", .num (Number form.user_id)), ("name", .str form.name)])) }

/-- The handler `add` of `UsersPanel`: the state afterwards and whether the
handler returned or threw. -/
def UsersPanel.add (env : Env) (s : UsersState) : UsersState × Except Thrown Unit :=
  if s.form.user_id = "" ∨ s.form.name = "" then (s, .ok ())
  else
    match api env s.hook "/api/users" (UsersPanel.addOptions s.form) with
    | (h, .error e) => ({ s with hook := h }, .error e)
    | (h, .ok _) =>
      let s1 := { s with hook := h }
      let s2 := { s1 with form := ⟨"", ""⟩ }
      (UsersPanel.load env s2, .ok ())

/-! ## `TicketsPanel` -/

/-- The form of `TicketsPanel`. -/
structure TicketForm where
  title : String
  assignee : String
  deriving DecidableEq

/-- State of `TicketsPanel`. -/
structure TicketsState where
  hook : ApiState
  tickets : Json
  status : String
  form : TicketForm

/-- The state `TicketsPanel` starts in. -/
def TicketsPanel.init : TicketsState :=
  { hook := { loading := false, error := "", calls := [] },
    tickets := .arr [], status := "OPEN", form := ⟨"", ""⟩ }

/-- The path that `load` requests for a filter value. -/
def TicketsPanel.loadPath (status : String) : String :=
  "/api/tickets?status=" ++ encodeURIComponent status

/-- The function `load` of `TicketsPanel`; it has no `catch`.  The result is
the state afterwards and whether `load` returned or threw. -/
def TicketsPanel.load (env : Env) (s : TicketsState) : TicketsState × Except Thrown Unit :=
  match api env s.hook (TicketsPanel.loadPath s.status) with
  | (h, .error e) => ({ s with hook := h }, .error e)
  | (h, .ok data) =>
    let s1 := { s with hook := h }
    match data.getProp "tickets" with
    | .error e => (s1, .error e)
    | .ok v => ({ s1 with tickets := orEmptyArray v }, .ok ())

/-- The options of the call in `create`: a POST of the form. -/
def TicketsPanel.createOptions (form : TicketForm) : Options :=
  { method := some "POST",
    body := some (JSON.stringify
      (.obj [("title", .str form.title), ("assignee", .str form.assignee)])) }

/-- The handler `create` of `TicketsPanel`: the state afterwards and whether
the handler returned or threw. -/
def TicketsPanel.create (env : Env) (s : TicketsState) : TicketsState × Except Thrown Unit :=
  if s.form.title = "" ∨ s.form.assignee = "" then (s, .ok ())
  else
    match api env s.hook "/api/tickets" (TicketsPanel.createOptions s.form) with
    | (h, .error e) => ({ s with hook := h }, .error e)
    | (h, .ok _) =>
      let s1 := { s with hook := h }
      let s2 := { s1 with form := ⟨"", ""⟩ }
      TicketsPanel.load env s2

/-! ## Concrete surroundings used to evaluate the handlers -/

/-- A backend that answers every request with `500 Internal Server Error`. -/
def Example.env500 : Env :=
  { BASE_URL := "",
    fetch := fun _ _ => .responded ⟨500, "Internal Server Error", .ok .null⟩ }

/-- A network on which every `fetch` rejects. -/
def Example.envDown : Env :=
  { BASE_URL := "", fetch := fun _ _ => .rejected ⟨.TypeError, "Failed to fetch"⟩ }

/-- A backend that answers `200 OK` with a body that is not JSON. -/
def Example.envHtml : Env :=
  { BASE_URL := "",
    fetch := fun _ _ =>
      .responded ⟨200, "OK", .error ⟨.SyntaxError, "Unexpected token < in JSON at position 0"⟩⟩ }

/-- A backend that answers every request with `200 OK` and the body `d`. -/
def Example.envReply (d : Json) : Env :=
  { BASE_URL := "", fetch := fun _ _ => .responded ⟨200, "OK", .ok d⟩ }

/-- The ticket `{id: 1, title: "Login", assignee: "Alice", status: "OPEN"}`. -/
def Example.ticket1 : Json :=
  .obj [("id", .num (JsNum.ofNat 1)), ("title", .str "Login"), ("assignee", .str "Alice"),
    ("status", .str "OPEN")]

/-- The user `{user_id: 1, name: "Alice"}`. -/
def Example.user1 : Json :=
  .obj [("user_id", .num (JsNum.ofNat 1)), ("name", .str "Alice")]

/-- A backend with no CLOSED ticket and the single user `user1`: it answers
`{tickets: [], users: [user1]}` to every request. -/
def Example.envLists : Env :=
  Example.envReply (.obj [("tickets", .arr []), ("users", .arr [Example.user1])])

/-- The chat panel with `hello` typed into the input. -/
def Example.chatHello : ChatState := { ChatPanel.init with input := "hello" }

/-- The tickets panel showing `ticket1`, filter switched to CLOSED, with the
given form. -/
def Example.ticketsWith (form : TicketForm) : TicketsState :=
  { TicketsPanel.init with tickets := .arr [Example.ticket1], status := "CLOSED", form := form }

/-- The users panel showing no user yet, with the given form. -/
def Example.usersWith (form : UserForm) : UsersState :=
  { UsersPanel.init with form := form }

/-! ## Lemmas about the gateway -/

/-- The text `e.message || String(e)` of a built-in error is never empty. -/
theorem Thrown.text_ne_empty (e : Thrown) : e.text ≠ "" := by
  unfold Thrown.text Thrown.toString
  by_cases hm : e.message = ""
  · rcases e with ⟨k, m⟩
    cases k <;> simp_all [ErrorKind.name]
  · simp [hm]

/-- The text of an error with a message is that message. -/
theorem Thrown.text_eq_message (e : Thrown) (h : e.message ≠ "") : e.text = e.message := by
  simp [Thrown.text, h]

/-- A status line always holds at least the separating space. -/
theorem statusLine_ne_empty (a b : String) : a ++ " " ++ b ≠ "" := by
  intro h
  have := congrArg String.length h
  simp [String.length_append] at this
  exact absurd this.1.2 (by decide)

/-- A call whose `try` block returns `d`: `error` stays empty, `loading` is
cleared, the request is recorded and `d` is returned. -/
theorem api_of_ok (env : Env) (s : ApiState) (path : String) (options : Options) (d : Json)
    (h : apiTry (env.fetch s.calls (apiRequest env path options)) = .ok d) :
    api env s path options =
      ({ loading := false, error := "", calls := s.calls ++ [apiRequest env path options] },
        .ok d) := by
  simp only [api, apiBegin, h]

/-- A call whose `try` block throws `e`: the text of `e` is stored, `loading`
is cleared, the request is recorded and `e` is thrown on. -/
theorem api_of_error (env : Env) (s : ApiState) (path : String) (options : Options) (e : Thrown)
    (h : apiTry (env.fetch s.calls (apiRequest env path options)) = .error e) :
    api env s path options =
      ({ loading := false, error := e.text, calls := s.calls ++ [apiRequest env path options] },
        .error e) := by
  simp only [api, apiBegin, h]

/-- Every call of `api` is one of the two shapes above. -/
theorem api_cases (env : Env) (s : ApiState) (path : String) (options : Options) :
    (∃ d, api env s path options =
      ({ loading := false, error := "", calls := s.calls ++ [apiRequest env path options] },
        .ok d)) ∨
    (∃ e, api env s path options =
      ({ loading := false, error := e.text, calls := s.calls ++ [apiRequest env path options] },
        .error e)) := by
  cases h : apiTry (env.fetch s.calls (apiRequest env path options)) with
  | ok d => exact Or.inl ⟨d, api_of_ok env s path options d h⟩
  | error e => exact Or.inr ⟨e, api_of_error env s path options e h⟩

/-- The request of a call, with the base URL in front of the path. -/
theorem apiRequest_eq (env : Env) (p : String) (o : Options) :
    apiRequest env p o = ⟨env.BASE_URL ++ p, o.method, o.body⟩ := by
  by_cases hb : env.BASE_URL = "" <;> simp [apiRequest, hb]

/-! ## Lemmas about rounding to a double -/

/-- With enough fuel the halving count brackets `n` between two powers of two. -/
theorem log2Fuel_spec : ∀ (fuel n : Nat), n ≤ fuel → 0 < n →
    2 ^ log2Fuel fuel n ≤ n ∧ n < 2 ^ (log2Fuel fuel n + 1)
  | 0, n, h, hn => by omega
  | fuel + 1, n, h, hn => by
    unfold log2Fuel
    by_cases h2 : n < 2
    · simp only [if_pos h2]
      omega
    · simp only [if_neg h2]
      have ih := log2Fuel_spec fuel (n / 2) (by omega) (by omega)
      obtain ⟨ih1, ih2⟩ := ih
      constructor
      · rw [Nat.pow_succ]
        omega
      · rw [Nat.pow_succ]
        omega

/-- The bit position brackets `n`: `2^l ≤ n < 2^(l+1)`. -/
theorem log2Floor_spec (n : Nat) (hn : 0 < n) :
    2 ^ log2Floor n ≤ n ∧ n < 2 ^ (log2Floor n + 1) :=
  log2Fuel_spec n n (Nat.le_refl n) hn

/-- A number below `2^k` has bit position below `k`. -/
theorem log2Floor_lt_of_lt_pow (n k : Nat) (hn : 0 < n) (h : n < 2 ^ k) : log2Floor n < k := by
  by_contra hc
  have h1 := (log2Floor_spec n hn).1
  have h2 : 2 ^ k ≤ 2 ^ log2Floor n := Nat.pow_le_pow_right (by decide) (by omega)
  omega

/-- A number from `2^k` on has bit position at least `k`. -/
theorem le_log2Floor_of_pow_le (n k : Nat) (hn : 0 < n) (h : 2 ^ k ≤ n) : k ≤ log2Floor n := by
  by_contra hc
  have h1 := (log2Floor_spec n hn).2
  have h2 : 2 ^ (log2Floor n + 1) ≤ 2 ^ k := Nat.pow_le_pow_right (by decide) (by omega)
  omega

/-- The bit position is determined by the bracket. -/
theorem log2Floor_eq (n l : Nat) (h1 : 2 ^ l ≤ n) (h2 : n < 2 ^ (l + 1)) : log2Floor n = l := by
  have hn : 0 < n := lt_of_lt_of_le (Nat.two_pow_pos l) h1
  have a := log2Floor_lt_of_lt_pow n (l + 1) hn h2
  have b := le_log2Floor_of_pow_le n l hn h1
  omega

/-- The binary exponent of the ratio `c * b / b` is the bit position of `c`. -/
theorem floorLog2Ratio_mul (c b : Nat) (hc : 0 < c) (hb : 0 < b) :
    floorLog2Ratio (c * b) b = (log2Floor c : Int) := by
  obtain ⟨c1, c2⟩ := log2Floor_spec c hc
  obtain ⟨b1, b2⟩ := log2Floor_spec b hb
  have hcb : 0 < c * b := Nat.mul_pos hc hb
  -- bounds on the bit position of the product
  have hlo : log2Floor c + log2Floor b ≤ log2Floor (c * b) := by
    apply le_log2Floor_of_pow_le _ _ hcb
    rw [Nat.pow_add]
    exact Nat.mul_le_mul c1 b1
  have hhi : log2Floor (c * b) < log2Floor c + log2Floor b + 2 := by
    apply log2Floor_lt_of_lt_pow _ _ hcb
    have : c * b < 2 ^ (log2Floor c + 1) * 2 ^ (log2Floor b + 1) :=
      Nat.mul_lt_mul'' c2 b2
    rw [← Nat.pow_add] at this
    have e : log2Floor c + 1 + (log2Floor b + 1) = log2Floor c + log2Floor b + 2 := by omega
    rw [e] at this
    exact this
  unfold floorLog2Ratio
  simp only []
  have ht : (0 : Int) ≤ (log2Floor (c * b) : Int) - (log2Floor b : Int) := by omega
  rw [if_pos ht]
  rcases Nat.lt_or_ge (log2Floor (c * b)) (log2Floor c + log2Floor b + 1) with h | h
  · have e1 : log2Floor (c * b) = log2Floor c + log2Floor b := by omega
    have e2 : ((log2Floor (c * b) : Int) - (log2Floor b : Int)).toNat = log2Floor c := by
      rw [e1]; omega
    rw [e2]
    have : b * 2 ^ log2Floor c ≤ c * b := by
      rw [Nat.mul_comm c b]; exact Nat.mul_le_mul_left b c1
    rw [if_pos this, e1]
    omega
  · have e1 : log2Floor (c * b) = log2Floor c + log2Floor b + 1 := by omega
    have e2 : ((log2Floor (c * b) : Int) - (log2Floor b : Int)).toNat = log2Floor c + 1 := by
      rw [e1]; omega
    rw [e2]
    have : ¬ b * 2 ^ (log2Floor c + 1) ≤ c * b := by
      rw [Nat.mul_comm c b]
      intro hle
      have := Nat.le_of_mul_le_mul_left hle hb
      omega
    rw [if_neg this, e1]
    omega

/-- Rounding a quotient does not change when numerator and denominator are scaled. -/
theorem roundQuotient_scale (k num den : Nat) (e : Int) (hk : 0 < k) :
    roundQuotient (k * num) (k * den) e = roundQuotient num den e := by
  unfold roundQuotient
  have hq : k * num / (k * den) = num / den := Nat.mul_div_mul_left num den hk
  have hr : k * num % (k * den) = k * (num % den) := Nat.mul_mod_mul_left k num den
  have c1 : (k * den < 2 * (k * (num % den))) ↔ (den < 2 * (num % den)) := by
    constructor
    · intro h
      have : k * den < k * (2 * (num % den)) := by
        rw [Nat.mul_left_comm]; exact h
      exact Nat.lt_of_mul_lt_mul_left this
    · intro h
      have : k * den < k * (2 * (num % den)) := Nat.mul_lt_mul_of_pos_left h hk
      rw [Nat.mul_left_comm] at this; exact this
  have c2 : (2 * (k * (num % den)) = k * den) ↔ (2 * (num % den) = den) := by
    constructor
    · intro h
      have : k * (2 * (num % den)) = k * den := by
        rw [Nat.mul_left_comm]; exact h
      exact Nat.eq_of_mul_eq_mul_left hk this
    · intro h
      rw [Nat.mul_left_comm, h]
  simp only [hq, hr, c1, c2]

/-- Rounding `c * b / b` is rounding `c / 1`. -/
theorem roundRatio_mul (c b : Nat) (hb : 0 < b) : roundRatio (c * b) b = roundRatio c 1 := by
  rcases Nat.eq_zero_or_pos c with hc | hc
  · subst hc; simp [roundRatio]
  have hcb : c * b ≠ 0 := Nat.pos_iff_ne_zero.mp (Nat.mul_pos hc hb)
  have hc0 : c ≠ 0 := Nat.pos_iff_ne_zero.mp hc
  have f1 := floorLog2Ratio_mul c b hc hb
  have f2 : floorLog2Ratio c 1 = (log2Floor c : Int) := by
    have := floorLog2Ratio_mul c 1 hc (by decide)
    rwa [Nat.mul_one] at this
  unfold roundRatio
  simp only [if_neg hcb, if_neg hc0, f1, f2]
  split
  · rw [Nat.mul_comm c b, roundQuotient_scale b c _ _ hb, Nat.one_mul]
  · have : c * b * 2 ^ (-max ((log2Floor c : Int) - 52) (-1074)).toNat
        = b * (c * 2 ^ (-max ((log2Floor c : Int) - 52) (-1074)).toNat) := by
      rw [Nat.mul_comm c b, Nat.mul_assoc]
    rw [this]
    have h1 := roundQuotient_scale b (c * 2 ^ (-max ((log2Floor c : Int) - 52) (-1074)).toNat) 1
      (max ((log2Floor c : Int) - 52) (-1074)) hb
    rw [Nat.mul_one] at h1
    exact h1

/-- A non-zero integer below `2^53` over 1 is kept as it is. -/
theorem roundQuotient_exact (q : Nat) (e : Int) (hq : q ≠ 0) (hlt : q < 2 ^ 53)
    (he : e ≤ 971) : roundQuotient q 1 e = some (q, e) := by
  have h53 : ¬ q = 2 ^ 53 := Nat.ne_of_lt hlt
  have he2 : ¬ (971 < e) := by omega
  have hc : ¬ (1 < 2 * 0 ∨ (2 * 0 = 1 ∧ q % 2 = 1)) := by omega
  unfold roundQuotient
  simp only [Nat.div_one, Nat.mod_one]
  rw [if_neg hc, if_neg h53, if_neg h53, if_neg he2, if_neg hq]

/-- A positive integer below `2^53` is represented exactly, shifted to 53 bits. -/
theorem roundRatio_nat (n : Nat) (hn : 0 < n) (hlt : n < 2 ^ 53) :
    roundRatio n 1 = some (n * 2 ^ (52 - log2Floor n), (log2Floor n : Int) - 52) := by
  have hn0 : n ≠ 0 := Nat.pos_iff_ne_zero.mp hn
  have f2 : floorLog2Ratio n 1 = (log2Floor n : Int) := by
    have := floorLog2Ratio_mul n 1 hn (by decide)
    rwa [Nat.mul_one] at this
  have hL : log2Floor n < 53 := log2Floor_lt_of_lt_pow n 53 hn hlt
  obtain ⟨s1, s2⟩ := log2Floor_spec n hn
  have hmax : max ((log2Floor n : Int) - 52) (-1074) = (log2Floor n : Int) - 52 := by omega
  unfold roundRatio
  simp only [if_neg hn0, f2, hmax]
  by_cases h52 : log2Floor n = 52
  · have : (0 : Int) ≤ (log2Floor n : Int) - 52 := by omega
    rw [if_pos this]
    have e0 : ((log2Floor n : Int) - 52).toNat = 0 := by omega
    rw [e0, h52]
    simp only [Nat.pow_zero, Nat.mul_one, Nat.sub_self]
    exact roundQuotient_exact n _ hn0 hlt (by omega)
  · have : ¬ (0 : Int) ≤ (log2Floor n : Int) - 52 := by omega
    rw [if_neg this]
    have e0 : (-((log2Floor n : Int) - 52)).toNat = 52 - log2Floor n := by omega
    rw [e0]
    apply roundQuotient_exact
    · exact Nat.pos_iff_ne_zero.mp (Nat.mul_pos hn (Nat.two_pow_pos _))
    · calc n * 2 ^ (52 - log2Floor n) < 2 ^ (log2Floor n + 1) * 2 ^ (52 - log2Floor n) :=
            Nat.mul_lt_mul_of_pos_right s2 (Nat.two_pow_pos _)
        _ = 2 ^ 53 := by rw [← Nat.pow_add]; congr 1; omega
    · omega

/-- Rounding at a non-negative exponent ends at a non-negative exponent. -/
theorem roundQuotient_exp_nonneg (num den : Nat) (e : Int) (he : 0 ≤ e) (m : Nat) (e2 : Int)
    (h : roundQuotient num den e = some (m, e2)) : 0 ≤ e2 := by
  unfold roundQuotient at h
  simp only [] at h
  split_ifs at h <;> simp only [Option.some.injEq, Prod.mk.injEq] at h <;> omega

/-- An integer from `2^53` on rounds to a double with non-negative exponent. -/
theorem roundRatio_big_exp_nonneg (n : Nat) (hge : 2 ^ 53 ≤ n) (m : Nat) (e : Int)
    (h : roundRatio n 1 = some (m, e)) : 0 ≤ e := by
  have hn : 0 < n := lt_of_lt_of_le (Nat.two_pow_pos 53) hge
  have hn0 : n ≠ 0 := Nat.pos_iff_ne_zero.mp hn
  have f2 : floorLog2Ratio n 1 = (log2Floor n : Int) := by
    have := floorLog2Ratio_mul n 1 hn (by decide)
    rwa [Nat.mul_one] at this
  have hL : 53 ≤ log2Floor n := le_log2Floor_of_pow_le n 53 hn hge
  have hmax : max ((log2Floor n : Int) - 52) (-1074) = (log2Floor n : Int) - 52 := by omega
  unfold roundRatio at h
  simp only [if_neg hn0, f2, hmax] at h
  have : (0 : Int) ≤ (log2Floor n : Int) - 52 := by omega
  rw [if_pos this] at h
  exact roundQuotient_exp_nonneg _ _ _ this m e h

/-- The double of a natural number below `2^53` is that integer, with its sign. -/
theorem ofRatio_nat_toInt (neg : Bool) (n : Nat) (hlt : n < 2 ^ 53) :
    (JsNum.ofRatio neg n 1).toInt? = some (if neg then -(n : Int) else (n : Int)) := by
  rcases Nat.eq_zero_or_pos n with hn | hn
  · subst hn
    cases neg <;> simp [JsNum.ofRatio, roundRatio, JsNum.toInt?]
  · have hr := roundRatio_nat n hn hlt
    have hL : log2Floor n < 53 := log2Floor_lt_of_lt_pow n 53 hn hlt
    simp only [JsNum.ofRatio, hr, JsNum.toInt?]
    by_cases h52 : log2Floor n = 52
    · have : (0 : Int) ≤ (log2Floor n : Int) - 52 := by omega
      rw [if_pos this]
      have e0 : ((log2Floor n : Int) - 52).toNat = 0 := by omega
      rw [e0, h52]
      simp
    · have : ¬ (0 : Int) ≤ (log2Floor n : Int) - 52 := by omega
      rw [if_neg this]
      have e0 : (-((log2Floor n : Int) - 52)).toNat = 52 - log2Floor n := by omega
      rw [e0]
      have hm : n * 2 ^ (52 - log2Floor n) % 2 ^ (52 - log2Floor n) = 0 :=
        Nat.mul_mod_left _ _
      have hd : n * 2 ^ (52 - log2Floor n) / 2 ^ (52 - log2Floor n) = n :=
        Nat.mul_div_cancel _ (Nat.two_pow_pos _)
      rw [if_pos hm, hd]

/-- The double of a natural number is an integer unless it overflows. -/
theorem ofRatio_nat_isInteger (neg : Bool) (n : Nat)
    (hfin : (JsNum.ofRatio neg n 1).isFinite = true) :
    (JsNum.ofRatio neg n 1).isInteger = true := by
  rcases Nat.lt_or_ge n (2 ^ 53) with hlt | hge
  · have h := ofRatio_nat_toInt neg n hlt
    revert h
    cases hx : JsNum.ofRatio neg n 1 with
    | nan => simp [JsNum.toInt?]
    | inf s => simp [JsNum.toInt?]
    | fin s m e =>
      simp only [JsNum.toInt?, JsNum.isInteger]
      intro h
      by_cases he : 0 ≤ e
      · simp [he]
      · rw [if_neg he] at h
        by_cases hm : m % 2 ^ (-e).toNat = 0
        · simp [hm]
        · rw [if_neg hm] at h; cases h
  · revert hfin
    unfold JsNum.ofRatio
    cases hr : roundRatio n 1 with
    | none => simp [JsNum.isFinite]
    | some p =>
      obtain ⟨m, e⟩ := p
      have := roundRatio_big_exp_nonneg n hge m e hr
      simp [JsNum.isInteger, this]

/-- The magnitude of a signed natural number. -/
theorem natAbs_signed (neg : Bool) (v : Nat) :
    (if neg then -(v : Int) else (v : Int)).natAbs = v := by
  cases neg <;> simp

/-- A literal whose value is the integer `N` rounds like the natural number
`|N|` with the sign of the literal. -/
theorem ofLiteral_of_toInt (lit : NumericLiteral) (N : Int) (h : lit.toInt? = some N) :
    ∃ neg : Bool, JsNum.ofLiteral lit = JsNum.ofRatio neg N.natAbs 1 ∧
      N = (if neg then -(N.natAbs : Int) else (N.natAbs : Int)) := by
  cases lit with
  | invalid => simp [NumericLiteral.toInt?] at h
  | infinity s => simp [NumericLiteral.toInt?] at h
  | decimal neg mant exp =>
    have key : ∃ v : Nat, N = (if neg then -(v : Int) else (v : Int)) ∧
        JsNum.ofLiteral (.decimal neg mant exp) = JsNum.ofRatio neg v 1 := by
      simp only [NumericLiteral.toInt?] at h
      simp only [JsNum.ofLiteral, JsNum.ofDecimal]
      by_cases he : 0 ≤ exp
      · rw [if_pos he] at h ⊢
        exact ⟨mant * 10 ^ exp.toNat, (Option.some.inj h).symm, rfl⟩
      · rw [if_neg he] at h ⊢
        by_cases hm : mant % 10 ^ (-exp).toNat = 0
        · rw [if_pos hm] at h
          refine ⟨mant / 10 ^ (-exp).toNat, (Option.some.inj h).symm, ?_⟩
          have hb : 0 < 10 ^ (-exp).toNat := Nat.pos_pow_of_pos _ (by decide)
          have hmul : mant / 10 ^ (-exp).toNat * 10 ^ (-exp).toNat = mant :=
            Nat.div_mul_cancel (Nat.dvd_of_mod_eq_zero hm)
          have := roundRatio_mul (mant / 10 ^ (-exp).toNat) (10 ^ (-exp).toNat) hb
          rw [hmul] at this
          unfold JsNum.ofRatio
          rw [this]
        · rw [if_neg hm] at h; cases h
    obtain ⟨v, hv, hlit⟩ := key
    have hab : N.natAbs = v := by rw [hv]; exact natAbs_signed neg v
    exact ⟨neg, by rw [hab]; exact hlit, by rw [hab]; exact hv⟩

/-- `Number` of a text whose literal value is an integer: the result is an
integer unless it overflows, and it is that integer below `2^53`. -/
theorem Number_of_integer_literal (s : String) (N : Int)
    (h : (parseNumeric (jsTrimChars s.data)).toInt? = some N) :
    ((Number s).isFinite = true → (Number s).isInteger = true) ∧
    (N.natAbs < 2 ^ 53 → (Number s).toInt? = some N) := by
  obtain ⟨neg, h1, h2⟩ := ofLiteral_of_toInt _ N h
  unfold Number
  rw [h1]
  constructor
  · exact ofRatio_nat_isInteger neg N.natAbs
  · intro hlt
    rw [ofRatio_nat_toInt neg N.natAbs hlt]
    exact congrArg some h2.symm

/-! ## Lemmas about `Number` -/

/-- Dropping a prefix of elements that satisfy `p` from a list that has none
changes nothing. -/
theorem dropWhile_eq_self_of_all_false {α : Type} (p : α → Bool) (l : List α)
    (h : ∀ c ∈ l, p c = false) : l.dropWhile p = l := by
  cases l with
  | nil => rfl
  | cons a t => simp [List.dropWhile, h a (List.mem_cons_self a t)]

/-- A prefix of elements that all satisfy `p` is dropped whole. -/
theorem dropWhile_append_of_all {α : Type} (p : α → Bool) (pre l : List α)
    (h : ∀ c ∈ pre, p c = true) : (pre ++ l).dropWhile p = l.dropWhile p := by
  induction pre with
  | nil => rfl
  | cons a t ih =>
    have ha := h a (List.mem_cons_self a t)
    simp only [List.cons_append, List.dropWhile_cons, ha, if_true]
    exact ih (fun c hc => h c (List.mem_cons_of_mem a hc))

/-- Decimal-digit characters have codes 48 to 57. -/
theorem digit_code (c : Char) (h : isDigitOf 10 c = true) :
    48 ≤ c.toNat ∧ c.toNat ≤ 57 ∧ digitValue c = c.toNat - 48 := by
  have hle : ∀ a b : Char, a ≤ b ↔ a.toNat ≤ b.toNat := fun a b => Iff.rfl
  simp only [isDigitOf, digitValue, hle, Bool.and_eq_true, decide_eq_true_eq] at h
  have e0 : '0'.toNat = 48 := rfl
  have e9 : '9'.toNat = 57 := rfl
  have ea : 'a'.toNat = 97 := rfl
  have ef : 'f'.toNat = 102 := rfl
  have eA : 'A'.toNat = 65 := rfl
  have eF : 'F'.toNat = 70 := rfl
  rw [e0, e9, ea, ef, eA, eF] at h
  have hb : 48 ≤ c.toNat ∧ c.toNat ≤ 57 := by
    obtain ⟨h1, h2⟩ := h
    split_ifs at h2 with ha hb hc <;> omega
  refine ⟨hb.1, hb.2, ?_⟩
  simp only [digitValue, hle, e0, e9]
  rw [if_pos hb]

/-- A decimal digit is not white space. -/
theorem not_whiteSpace_of_digit (c : Char) (h : isDigitOf 10 c = true) :
    isJsWhiteSpace c = false := by
  obtain ⟨h1, h2, _⟩ := digit_code c h
  simp only [isJsWhiteSpace]
  simp
  omega

/-- Trimming removes white space around a text that neither starts nor ends
with white space. -/
theorem jsTrimChars_core (pre post mid : List Char) (a b : Char) (t u : List Char)
    (hpre : ∀ c ∈ pre, isJsWhiteSpace c = true) (hpost : ∀ c ∈ post, isJsWhiteSpace c = true)
    (hhead : mid = a :: t) (ha : isJsWhiteSpace a = false)
    (hlast : mid.reverse = b :: u) (hb : isJsWhiteSpace b = false) :
    jsTrimChars (pre ++ mid ++ post) = mid := by
  unfold jsTrimChars
  rw [List.append_assoc, dropWhile_append_of_all _ pre _ hpre]
  have h1 : (mid ++ post).dropWhile isJsWhiteSpace = mid ++ post := by
    rw [hhead]; simp [List.dropWhile, ha]
  rw [h1, List.reverse_append,
    dropWhile_append_of_all _ post.reverse _ (fun c hc => hpost c (List.mem_reverse.mp hc))]
  have h2 : mid.reverse.dropWhile isJsWhiteSpace = mid.reverse := by
    rw [hlast]; simp [List.dropWhile, hb]
  rw [h2, List.reverse_reverse]

/-- A non-empty run of decimal digits is an unsigned literal with the value of
its digits. -/
theorem parseUnsignedDecimal_digits (neg : Bool) (cs : List Char) (hne : cs ≠ [])
    (hd : ∀ c ∈ cs, isDigitOf 10 c = true) :
    parseUnsignedDecimal neg cs = .decimal neg (digitsToNat 10 cs) 0 := by
  have hx : ∀ c : Char, isDigitOf 10 c = false → c ∉ cs := fun c hc hmem => by
    rw [hd c hmem] at hc; cases hc
  have hInf : cs ≠ "Infinity".data := by
    intro h
    exact hx 'I' (by decide) (by rw [h]; decide)
  have htw : cs.takeWhile (isDigitOf 10) = cs := List.takeWhile_eq_self_iff.mpr hd
  have hdw : cs.dropWhile (isDigitOf 10) = [] := List.dropWhile_eq_nil_iff.mpr hd
  simp [parseUnsignedDecimal, hInf, htw, hdw, hne, parseExponent]

/-- A non-empty run of decimal digits parses as the integer it denotes. -/
theorem parseNumeric_digits (cs : List Char) (hne : cs ≠ [])
    (hd : ∀ c ∈ cs, isDigitOf 10 c = true) :
    parseNumeric cs = .decimal false (digitsToNat 10 cs) 0 := by
  have hx : ∀ c : Char, isDigitOf 10 c = false → c ∉ cs := fun c hc hmem => by
    rw [hd c hmem] at hc; cases hc
  unfold parseNumeric
  split
  · exact absurd rfl hne
  · exact absurd (List.mem_cons_of_mem _ (List.mem_cons_self _ _)) (hx 'x' (by decide))
  · exact absurd (List.mem_cons_of_mem _ (List.mem_cons_self _ _)) (hx 'X' (by decide))
  · exact absurd (List.mem_cons_of_mem _ (List.mem_cons_self _ _)) (hx 'o' (by decide))
  · exact absurd (List.mem_cons_of_mem _ (List.mem_cons_self _ _)) (hx 'O' (by decide))
  · exact absurd (List.mem_cons_of_mem _ (List.mem_cons_self _ _)) (hx 'b' (by decide))
  · exact absurd (List.mem_cons_of_mem _ (List.mem_cons_self _ _)) (hx 'B' (by decide))
  · exact absurd (List.mem_cons_self _ _) (hx '+' (by decide))
  · exact absurd (List.mem_cons_self _ _) (hx '-' (by decide))
  · exact parseUnsignedDecimal_digits false cs hne hd

/-- The value of a run of decimal digits, folded from the character codes. -/
theorem digitsToNat_eq_fold (cs : List Char) (hd : ∀ c ∈ cs, isDigitOf 10 c = true) :
    digitsToNat 10 cs = cs.foldl (fun acc c => acc * 10 + (c.toNat - 48)) 0 := by
  unfold digitsToNat
  generalize (0 : Nat) = acc
  induction cs generalizing acc with
  | nil => rfl
  | cons c t ih =>
    simp only [List.foldl_cons]
    rw [(digit_code c (hd c (List.mem_cons_self c t))).2.2]
    exact ih (fun x hx => hd x (List.mem_cons_of_mem c hx)) _

/-- White space, an optional sign, a run of decimal digits, white space: the
literal is the signed value of the digits. -/
theorem parseNumeric_signed_digits (pre post ds sign : List Char)
    (hpre : ∀ c ∈ pre, isJsWhiteSpace c = true) (hpost : ∀ c ∈ post, isJsWhiteSpace c = true)
    (hne : ds ≠ []) (hd : ∀ c ∈ ds, isDigitOf 10 c = true)
    (hs : sign = [] ∨ sign = ['+'] ∨ sign = ['-']) :
    parseNumeric (jsTrimChars (pre ++ (sign ++ ds) ++ post)) =
      .decimal (decide (sign = ['-']))
        (ds.foldl (fun acc c => acc * 10 + (c.toNat - 48)) 0) 0 := by
  rw [← digitsToNat_eq_fold ds hd]
  -- the last character is a digit
  obtain ⟨b, u, hrev⟩ : ∃ b u, ds.reverse = b :: u := by
    cases hr : ds.reverse with
    | nil => exact absurd (List.reverse_eq_nil_iff.mp hr) hne
    | cons b u => exact ⟨b, u, rfl⟩
  have hbmem : b ∈ ds := List.mem_reverse.mp (by rw [hrev]; exact List.mem_cons_self b u)
  have hbws := not_whiteSpace_of_digit b (hd b hbmem)
  obtain ⟨d, t, hds⟩ : ∃ d t, ds = d :: t := by
    cases ds with
    | nil => exact absurd rfl hne
    | cons d t => exact ⟨d, t, rfl⟩
  have hdws : isJsWhiteSpace d = false :=
    not_whiteSpace_of_digit d (hd d (by rw [hds]; exact List.mem_cons_self d t))
  have hlast : (sign ++ ds).reverse = b :: (u ++ sign.reverse) := by
    rw [List.reverse_append, hrev]; rfl
  rcases hs with hs | hs | hs
  · subst hs
    rw [jsTrimChars_core pre post ([] ++ ds) d b t (u ++ [])
      hpre hpost (by simpa using hds) hdws (by simpa using hlast) hbws]
    simp only [List.nil_append]
    rw [parseNumeric_digits ds hne hd]
    simp
  · subst hs
    rw [jsTrimChars_core pre post (['+'] ++ ds) '+' b ds (u ++ ['+'])
      hpre hpost rfl (by decide) (by simpa using hlast) hbws]
    have : parseNumeric (['+'] ++ ds) = parseUnsignedDecimal false ds := by
      simp [parseNumeric]
    rw [this, parseUnsignedDecimal_digits false ds hne hd]
    simp
  · subst hs
    rw [jsTrimChars_core pre post (['-'] ++ ds) '-' b ds (u ++ ['-'])
      hpre hpost rfl (by decide) (by simpa using hlast) hbws]
    have : parseNumeric (['-'] ++ ds) = parseUnsignedDecimal true ds := by
      simp [parseNumeric]
    rw [this, parseUnsignedDecimal_digits true ds hne hd]
    simp

/-- A character with a code from 48 to 57 is a decimal digit. -/
theorem isDigitOf_of_code (c : Char) (h1 : 48 ≤ c.toNat) (h2 : c.toNat ≤ 57) :
    isDigitOf 10 c = true := by
  have hle : ∀ a b : Char, a ≤ b ↔ a.toNat ≤ b.toNat := fun a b => Iff.rfl
  have e0 : '0'.toNat = 48 := rfl
  have e9 : '9'.toNat = 57 := rfl
  have hb : 48 ≤ c.toNat ∧ c.toNat ≤ 57 := ⟨h1, h2⟩
  simp only [isDigitOf, digitValue, hle, e0, e9, Bool.and_eq_true, decide_eq_true_eq]
  rw [if_pos hb]
  exact ⟨Or.inl hb, by omega⟩

set_option maxRecDepth 8192 in
/-- `Number` rounds to the nearest double, ties to even: `2^53 + 1` is read as
`2^53`, and printed so. -/
theorem Number_rounds_to_double :
    Number "9007199254740993" = .fin false (2 ^ 52) 1 ∧
    (Number "9007199254740993").toInt? = some 9007199254740992 ∧
    (Number "9007199254740993").toChars = "9007199254740992".data := by
  refine ⟨by decide, by decide, by rfl⟩

/-! ## Lemmas about `JSON.stringify` -/

/-- Quoting a character yields at least one character. -/
theorem one_le_length_quoteJSONChar (c : Char) : 1 ≤ (quoteJSONChar c).length := by
  unfold quoteJSONChar
  simp only []
  split_ifs <;> simp

/-- Quoting never shortens a run of characters. -/
theorem length_le_length_flatMap_quote (cs : List Char) :
    cs.length ≤ (cs.flatMap quoteJSONChar).length := by
  induction cs with
  | nil => simp
  | cons c t ih =>
    have := one_le_length_quoteJSONChar c
    simp only [List.flatMap_cons, List.length_append, List.length_cons]
    omega

/-- A quoted string is at least two characters longer than the string. -/
theorem length_quoteJSONString (s : String) : s.data.length + 2 ≤ (quoteJSONString s).length := by
  have := length_le_length_flatMap_quote s.data
  simp only [quoteJSONString, List.length_cons, List.length_append, List.length_nil]
  omega

/-- The text of an object is at least as long as the text of any member. -/
theorem length_stringifyFields_of_lookup (k : String) (v : Json) :
    ∀ kvs : List (String × Json), kvs.lookup k = some v →
      v.stringifyChars.length ≤ (stringifyFields kvs).length
  | [], h => by simp at h
  | [(k1, v1)], h => by
    simp only [List.lookup] at h
    split at h
    · cases h
      simp only [stringifyFields, List.length_append, List.length_cons]
      omega
    · cases h
  | (k1, v1) :: y :: rest, h => by
    simp only [List.lookup] at h
    split at h
    · cases h
      simp only [stringifyFields, List.length_append, List.length_cons]
      omega
    · have ih := length_stringifyFields_of_lookup k v (y :: rest)
        (by simpa only [List.lookup] using h)
      simp only [stringifyFields, List.length_append, List.length_cons]
      omega

/-- A string held in the `reply` field of a response is never the JSON text of
that response, which contains it in quotes. -/
theorem reply_ne_stringify (data : Json) (r : String)
    (h : data.getProp "reply" = .ok (some (.str r))) : r ≠ JSON.stringify data := by
  intro hr
  cases data with
  | obj kvs =>
    simp only [Json.getProp, Except.ok.injEq] at h
    have h1 := length_stringifyFields_of_lookup "reply" (.str r) kvs h
    have h2 := length_quoteJSONString r
    have h3 : r.data = (Json.obj kvs).stringifyChars := by rw [hr]; rfl
    simp only [Json.stringifyChars] at h1 h3
    rw [h3] at h2
    simp only [List.length_cons, List.length_append, List.length_nil] at h2
    omega
  | null => simp [Json.getProp] at h
  | bool b => simp [Json.getProp] at h
  | num n => simp [Json.getProp] at h
  | str s => simp [Json.getProp] at h
  | arr xs => simp [Json.getProp] at h

/-! ## Lemmas about `ChatPanel` -/

/-- A property read fails only on `null`. -/
theorem getProp_ok_of_ne_null (v : Json) (key : String) (h : v ≠ .null) :
    ∃ r, v.getProp key = .ok r := by
  cases v with
  | null => exact absurd rfl h
  | bool b => exact ⟨none, rfl⟩
  | num n => exact ⟨none, rfl⟩
  | str s => exact ⟨none, rfl⟩
  | arr xs => exact ⟨none, rfl⟩
  | obj kvs => exact ⟨kvs.lookup key, rfl⟩

/-- What the `catch` of `send` shows, in general: when the call fails, the
assistant entry is built from the `error` the handler captured, while the
hook holds the text of the new failure. -/
theorem send_failure_reads_captured_error (env : Env) (s : ChatState) (e : Thrown)
    (h : jsTrim s.input ≠ "")
    (hapi : (api env s.hook "/api/chat" (ChatPanel.sendOptions (.str (jsTrim s.input)))).2
      = .error e) :
    (ChatPanel.send env s).messages = s.messages ++
      [⟨.user, .str (jsTrim s.input)⟩, ⟨.assistant, .str (ChatPanel.failureText s.hook.error)⟩] ∧
    (ChatPanel.send env s).hook.error = e.text := by
  rcases api_cases env s.hook "/api/chat" (ChatPanel.sendOptions (.str (jsTrim s.input))) with
    ⟨d, hd⟩ | ⟨e2, he⟩
  · rw [hd] at hapi; cases hapi
  · rw [he] at hapi
    cases hapi
    simp only [ChatPanel.send, if_neg h, he]
    simp

/-! ## The claims -/

/-- C1: whatever `fetch` does, a call of `api` first resets `error` to the empty
string and raises `loading`, its result does not depend on the `error` and
`loading` it found, and `loading` is false once the call has settled. -/
theorem api_resets_error_and_clears_loading (env : Env) (s : ApiState) (path : String)
    (options : Options) :
    (apiBegin s).error = "" ∧ (apiBegin s).loading = true ∧
      (api env s path options).1.loading = false ∧
      api env s path options =
        api env { loading := false, error := "", calls := s.calls } path options := by
  refine ⟨rfl, rfl, ?_, ?_⟩
  · cases h : apiTry (env.fetch s.calls (apiRequest env path options)) with
    | ok d => rw [api_of_ok env s path options d h]
    | error e => rw [api_of_error env s path options e h]
  · cases h : apiTry (env.fetch s.calls (apiRequest env path options)) with
    | ok d => rw [api_of_ok env s path options d h, api_of_ok env ⟨false, "", s.calls⟩ path options d h]
    | error e => rw [api_of_error env s path options e h,
        api_of_error env ⟨false, "", s.calls⟩ path options e h]

/-- C2: a call of `api` whose `fetch` rejects, whose response is not 2xx, or
whose body does not parse, throws that failure and leaves its text (never
empty, the message when there is one) in `error`; for a response that is not
2xx the failure is `status statusText` whatever the body is; a call that
succeeds returns the parsed body and leaves `error` empty. -/
theorem api_failure_recorded_and_rethrown (env : Env) (s : ApiState) (path : String)
    (options : Options) :
    (∀ e, env.fetch s.calls (apiRequest env path options) = .rejected e →
      (api env s path options).2 = .error e ∧ (api env s path options).1.error = e.text ∧
      (api env s path options).1.error ≠ "" ∧
      (e.message ≠ "" → (api env s path options).1.error = e.message)) ∧
    (∀ res, env.fetch s.calls (apiRequest env path options) = .responded res →
      ¬ (200 ≤ res.status ∧ res.status ≤ 299) →
      (api env s path options).2 =
        .error ⟨.Error, toString res.status ++ " " ++ res.statusText⟩ ∧
      (api env s path options).1.error = toString res.status ++ " " ++ res.statusText ∧
      (api env s path options).1.error ≠ "") ∧
    (∀ res e, env.fetch s.calls (apiRequest env path options) = .responded res →
      (200 ≤ res.status ∧ res.status ≤ 299) → res.json = .error e →
      (api env s path options).2 = .error e ∧ (api env s path options).1.error = e.text ∧
      (api env s path options).1.error ≠ "" ∧
      (e.message ≠ "" → (api env s path options).1.error = e.message)) ∧
    (∀ res d, env.fetch s.calls (apiRequest env path options) = .responded res →
      (200 ≤ res.status ∧ res.status ≤ 299) → res.json = .ok d →
      (api env s path options).2 = .ok d ∧ (api env s path options).1.error = "") := by
  refine ⟨?_, ?_, ?_, ?_⟩
  · intro e h
    have ht : apiTry (env.fetch s.calls (apiRequest env path options)) = .error e := by
      rw [h]; rfl
    rw [api_of_error env s path options e ht]
    exact ⟨rfl, rfl, e.text_ne_empty, fun hm => e.text_eq_message hm⟩
  · intro res h hok
    have hok2 : res.ok = false := by
      simp only [Response.ok, Bool.and_eq_false_iff, decide_eq_false_iff_not]
      by_cases h1 : 200 ≤ res.status
      · exact Or.inr (fun h2 => hok ⟨h1, h2⟩)
      · exact Or.inl h1
    have ht : apiTry (env.fetch s.calls (apiRequest env path options)) =
        .error ⟨.Error, toString res.status ++ " " ++ res.statusText⟩ := by
      rw [h]; simp [apiTry, hok2]
    rw [api_of_error env s path options _ ht]
    refine ⟨rfl, ?_, ?_⟩
    · exact Thrown.text_eq_message _ (statusLine_ne_empty _ _)
    · exact Thrown.text_ne_empty _
  · intro res e h hok hj
    have hok2 : res.ok = true := by
      simp [Response.ok, hok.1, hok.2]
    have ht : apiTry (env.fetch s.calls (apiRequest env path options)) = .error e := by
      rw [h]; simp [apiTry, hok2, hj]
    rw [api_of_error env s path options e ht]
    exact ⟨rfl, rfl, e.text_ne_empty, fun hm => e.text_eq_message hm⟩
  · intro res d h hok hj
    have hok2 : res.ok = true := by
      simp [Response.ok, hok.1, hok.2]
    have ht : apiTry (env.fetch s.calls (apiRequest env path options)) = .ok d := by
      rw [h]; simp [apiTry, hok2, hj]
    rw [api_of_ok env s path options d ht]
    exact ⟨rfl, rfl⟩

/-- C2, at a rejected `fetch`, a `500` response, a `200` response whose body is
not JSON, and a `200` response with body `null`. -/
theorem api_failure_recorded_and_rethrown_witness :
    ((api Example.envDown ⟨false, "old", []⟩ "/api/users" {}).2 =
        .error ⟨.TypeError, "Failed to fetch"⟩ ∧
      (api Example.envDown ⟨false, "old", []⟩ "/api/users" {}).1.error =
        (⟨.TypeError, "Failed to fetch"⟩ : Thrown).text ∧
      (api Example.envDown ⟨false, "old", []⟩ "/api/users" {}).1.error ≠ "" ∧
      ("Failed to fetch" ≠ "" →
        (api Example.envDown ⟨false, "old", []⟩ "/api/users" {}).1.error = "Failed to fetch")) ∧
    ((api Example.env500 ⟨false, "old", []⟩ "/api/users" {}).2 =
        .error ⟨.Error, "500 Internal Server Error"⟩ ∧
      (api Example.env500 ⟨false, "old", []⟩ "/api/users" {}).1.error =
        "500 Internal Server Error" ∧
      (api Example.env500 ⟨false, "old", []⟩ "/api/users" {}).1.error ≠ "") ∧
    ((api Example.envHtml ⟨false, "old", []⟩ "/api/users" {}).2 =
        .error ⟨.SyntaxError, "Unexpected token < in JSON at position 0"⟩ ∧
      (api Example.envHtml ⟨false, "old", []⟩ "/api/users" {}).1.error =
        (⟨.SyntaxError, "Unexpected token < in JSON at position 0"⟩ : Thrown).text ∧
      (api Example.envHtml ⟨false, "old", []⟩ "/api/users" {}).1.error ≠ "" ∧
      ("Unexpected token < in JSON at position 0" ≠ "" →
        (api Example.envHtml ⟨false, "old", []⟩ "/api/users" {}).1.error =
          "Unexpected token < in JSON at position 0")) ∧
    ((api (Example.envReply .null) ⟨false, "old", []⟩ "/api/users" {}).2 = .ok .null ∧
      (api (Example.envReply .null) ⟨false, "old", []⟩ "/api/users" {}).1.error = "") :=
  ⟨(api_failure_recorded_and_rethrown Example.envDown ⟨false, "old", []⟩ "/api/users" {}).1
      ⟨.TypeError, "Failed to fetch"⟩ rfl,
    (api_failure_recorded_and_rethrown Example.env500 ⟨false, "old", []⟩ "/api/users" {}).2.1
      ⟨500, "Internal Server Error", .ok .null⟩ rfl (by decide),
    (api_failure_recorded_and_rethrown Example.envHtml ⟨false, "old", []⟩ "/api/users" {}).2.2.1
      ⟨200, "OK", .error ⟨.SyntaxError, "Unexpected token < in JSON at position 0"⟩⟩
      ⟨.SyntaxError, "Unexpected token < in JSON at position 0"⟩ rfl (by decide) rfl,
    (api_failure_recorded_and_rethrown (Example.envReply .null) ⟨false, "old", []⟩
      "/api/users" {}).2.2.2 ⟨200, "OK", .ok .null⟩ .null rfl (by decide) rfl⟩

/-- C3: with an empty title or assignee `TicketsPanel.create`, and with an empty
user id or name `UsersPanel.add`, returns at the guard: the whole state,
including the record of `fetch` calls, is what it was. -/
theorem create_with_empty_field_is_noop (env : Env) (t : TicketsState) (u : UsersState)
    (ht : t.form.title = "" ∨ t.form.assignee = "")
    (hu : u.form.user_id = "" ∨ u.form.name = "") :
    TicketsPanel.create env t = (t, .ok ()) ∧ UsersPanel.add env u = (u, .ok ()) := by
  constructor
  · simp only [TicketsPanel.create, if_pos ht]
  · simp only [UsersPanel.add, if_pos hu]

/-- C3, at a ticket form without a title and a user form without a name. -/
theorem create_with_empty_field_is_noop_witness :
    ((Example.ticketsWith ⟨"", "Alice"⟩).form.title = "" ∨
      (Example.ticketsWith ⟨"", "Alice"⟩).form.assignee = "") ∧
    ((Example.usersWith ⟨"7", ""⟩).form.user_id = "" ∨
      (Example.usersWith ⟨"7", ""⟩).form.name = "") ∧
    TicketsPanel.create Example.envLists (Example.ticketsWith ⟨"", "Alice"⟩) =
      (Example.ticketsWith ⟨"", "Alice"⟩, .ok ()) ∧
    UsersPanel.add Example.envLists (Example.usersWith ⟨"7", ""⟩) =
      (Example.usersWith ⟨"7", ""⟩, .ok ()) :=
  ⟨by decide, by decide,
    create_with_empty_field_is_noop Example.envLists (Example.ticketsWith ⟨"", "Alice"⟩)
      (Example.usersWith ⟨"7", ""⟩) (by decide) (by decide)⟩

/-- C4: when the GET of a reload fails, `TicketsPanel.load` leaves `tickets` as
it was, and `UsersPanel.load` leaves `users` as it was; in each case the
`error` of the panel is not empty afterwards. -/
theorem failed_reload_keeps_cache (env : Env) (t : TicketsState) (u : UsersState) :
    (∀ e, (api env t.hook ("/api/tickets?status=" ++ encodeURIComponent t.status)).2
        = .error e →
      (TicketsPanel.load env t).1.tickets = t.tickets ∧
      (TicketsPanel.load env t).1.hook.error ≠ "") ∧
    (∀ e, (api env u.hook "/api/users").2 = .error e →
      (UsersPanel.load env u).users = u.users ∧
      (UsersPanel.load env u).hook.error ≠ "") := by
  constructor
  · intro e ht
    rcases api_cases env t.hook ("/api/tickets?status=" ++ encodeURIComponent t.status) {} with
      ⟨d, hd⟩ | ⟨e1, he⟩
    · rw [hd] at ht; cases ht
    · constructor
      · simp only [TicketsPanel.load, TicketsPanel.loadPath, he]
      · simp only [TicketsPanel.load, TicketsPanel.loadPath, he]
        exact e1.text_ne_empty
  · intro e hu
    rcases api_cases env u.hook "/api/users" {} with ⟨d, hd⟩ | ⟨e1, he⟩
    · rw [hd] at hu; cases hu
    · constructor
      · simp only [UsersPanel.load, he]
      · simp only [UsersPanel.load, he]
        exact e1.text_ne_empty

/-- C4, at a backend that answers `500` to both reloads. -/
theorem failed_reload_keeps_cache_witness :
    ((api Example.env500 (Example.ticketsWith ⟨"", ""⟩).hook
        ("/api/tickets?status=" ++ encodeURIComponent (Example.ticketsWith ⟨"", ""⟩).status)).2 =
      .error ⟨.Error, "500 Internal Server Error"⟩ ∧
    (TicketsPanel.load Example.env500 (Example.ticketsWith ⟨"", ""⟩)).1.tickets =
      (Example.ticketsWith ⟨"", ""⟩).tickets ∧
    (TicketsPanel.load Example.env500 (Example.ticketsWith ⟨"", ""⟩)).1.hook.error ≠ "") ∧
    ((api Example.env500 (Example.usersWith ⟨"", ""⟩).hook "/api/users").2 =
      .error ⟨.Error, "500 Internal Server Error"⟩ ∧
    (UsersPanel.load Example.env500 (Example.usersWith ⟨"", ""⟩)).users =
      (Example.usersWith ⟨"", ""⟩).users ∧
    (UsersPanel.load Example.env500 (Example.usersWith ⟨"", ""⟩)).hook.error ≠ "") :=
  ⟨⟨rfl, (failed_reload_keeps_cache Example.env500 (Example.ticketsWith ⟨"", ""⟩)
      (Example.usersWith ⟨"", ""⟩)).1 ⟨.Error, "500 Internal Server Error"⟩ rfl⟩,
    ⟨rfl, (failed_reload_keeps_cache Example.env500 (Example.ticketsWith ⟨"", ""⟩)
      (Example.usersWith ⟨"", ""⟩)).2 ⟨.Error, "500 Internal Server Error"⟩ rfl⟩⟩

/-- C5: when the GET of a tickets reload succeeds and the response carries the
list `L` under `tickets`, the cache afterwards is exactly `L`, whatever it was
before, and the one request sent is the GET of `/api/tickets?status=` with the
current filter (the four filter values are sent as they are); likewise, when
the GET of a users reload succeeds with the list `L` under `users`, the users
cache is exactly `L` and the one request is the GET of `/api/users`. -/
theorem successful_reload_replaces_cache (env : Env) (t : TicketsState) (u : UsersState) :
    (∀ d L, (api env t.hook ("/api/tickets?status=" ++ encodeURIComponent t.status)).2 = .ok d →
      d.getProp "tickets" = .ok (some (.arr L)) →
      (TicketsPanel.load env t).1.tickets = .arr L ∧
      (TicketsPanel.load env t).1.hook.calls = t.hook.calls ++
        [⟨env.BASE_URL ++ ("/api/tickets?status=" ++ encodeURIComponent t.status),
          none, none⟩]) ∧
    (t.status = "ALL" ∨ t.status = "OPEN" ∨ t.status = "IN_PROGRESS" ∨ t.status = "CLOSED" →
      encodeURIComponent t.status = t.status) ∧
    (∀ d L, (api env u.hook "/api/users").2 = .ok d →
      d.getProp "users" = .ok (some (.arr L)) →
      (UsersPanel.load env u).users = .arr L ∧
      (UsersPanel.load env u).hook.calls = u.hook.calls ++
        [⟨env.BASE_URL ++ "/api/users", none, none⟩]) := by
  refine ⟨?_, ?_, ?_⟩
  · intro d L ht hL
    rcases api_cases env t.hook ("/api/tickets?status=" ++ encodeURIComponent t.status) {} with
      ⟨d1, hd⟩ | ⟨e, he⟩
    swap
    · rw [he] at ht; cases ht
    rw [hd] at ht
    cases ht
    constructor
    · simp [TicketsPanel.load, TicketsPanel.loadPath, hd, hL, orEmptyArray, truthy?, Json.truthy]
    · simp [TicketsPanel.load, TicketsPanel.loadPath, hd, hL, apiRequest_eq]
  · rintro (h | h | h | h) <;> rw [h] <;> decide
  · intro d L hu hL
    rcases api_cases env u.hook "/api/users" {} with ⟨d1, hd⟩ | ⟨e, he⟩
    swap
    · rw [he] at hu; cases hu
    rw [hd] at hu
    cases hu
    constructor
    · simp [UsersPanel.load, hd, hL, orEmptyArray, truthy?, Json.truthy]
    · simp [UsersPanel.load, hd, hL, apiRequest_eq]

/-- C5, at the scenario of the specification: the cache holds the OPEN ticket
1, the filter is CLOSED and the backend returns no ticket, so the cache becomes
empty; the users cache becomes the one user returned. -/
theorem successful_reload_replaces_cache_witness :
    (Example.ticketsWith ⟨"", ""⟩).tickets = .arr [Example.ticket1] ∧
    ((TicketsPanel.load Example.envLists (Example.ticketsWith ⟨"", ""⟩)).1.tickets = .arr [] ∧
      (TicketsPanel.load Example.envLists (Example.ticketsWith ⟨"", ""⟩)).1.hook.calls =
        (Example.ticketsWith ⟨"", ""⟩).hook.calls ++
          [⟨Example.envLists.BASE_URL ++ ("/api/tickets?status=" ++
            encodeURIComponent (Example.ticketsWith ⟨"", ""⟩).status), none, none⟩]) ∧
    encodeURIComponent (Example.ticketsWith ⟨"", ""⟩).status = "CLOSED" ∧
    ((UsersPanel.load Example.envLists (Example.usersWith ⟨"", ""⟩)).users =
        .arr [Example.user1] ∧
      (UsersPanel.load Example.envLists (Example.usersWith ⟨"", ""⟩)).hook.calls =
        (Example.usersWith ⟨"", ""⟩).hook.calls ++
          [⟨Example.envLists.BASE_URL ++ "/api/users", none, none⟩]) :=
  ⟨rfl,
    (successful_reload_replaces_cache Example.envLists (Example.ticketsWith ⟨"", ""⟩)
      (Example.usersWith ⟨"", ""⟩)).1
      (.obj [("tickets", .arr []), ("users", .arr [Example.user1])]) [] rfl rfl,
    (successful_reload_replaces_cache Example.envLists (Example.ticketsWith ⟨"", ""⟩)
      (Example.usersWith ⟨"", ""⟩)).2.1 (Or.inr (Or.inr (Or.inr rfl))),
    (successful_reload_replaces_cache Example.envLists (Example.ticketsWith ⟨"", ""⟩)
      (Example.usersWith ⟨"", ""⟩)).2.2
      (.obj [("tickets", .arr []), ("users", .arr [Example.user1])]) [Example.user1] rfl rfl⟩

/-- C6 as stated fails: when the backend answers `200` with the body `null`,
the updater that builds the assistant entry throws on `data.reply` while React
renders, outside the `try` of `send`; the transcript is the old one followed
by the user entry only. -/
theorem send_null_body_appends_no_assistant :
    jsTrim Example.chatHello.input ≠ "" ∧
    (ChatPanel.send (Example.envReply .null) Example.chatHello).messages =
      Example.chatHello.messages ++ [⟨.user, .str "hello"⟩] ∧
    (ChatPanel.send (Example.envReply .null) Example.chatHello).renderError =
      some ⟨.TypeError, "Cannot read properties of null (reading \x27reply\x27)"⟩ ∧
    ¬ ∃ reply, (ChatPanel.send (Example.envReply .null) Example.chatHello).messages =
      Example.chatHello.messages ++ [⟨.user, .str "hello"⟩, ⟨.assistant, reply⟩] := by
  refine ⟨by decide, by rfl, by rfl, ?_⟩
  rintro ⟨reply, h⟩
  have hlen := congrArg List.length h
  have h1 : (ChatPanel.send (Example.envReply .null) Example.chatHello).messages =
      Example.chatHello.messages ++ [⟨.user, .str "hello"⟩] := by rfl
  rw [h1] at hlen
  simp at hlen

/-- C6 (amended): for an input that is not blank, whenever the call fails or
returns a body other than `null`, `ChatPanel.send` leaves the transcript it
found followed by exactly two entries, the trimmed input with role `user` and
then one entry with role `assistant`, and no updater throws. -/
theorem send_appends_user_then_assistant (env : Env) (s : ChatState)
    (h : jsTrim s.input ≠ "")
    (hbody : (api env s.hook "/api/chat" (ChatPanel.sendOptions (.str (jsTrim s.input)))).2
      ≠ .ok .null) :
    (∃ reply, (ChatPanel.send env s).messages =
      s.messages ++ [⟨.user, .str (jsTrim s.input)⟩, ⟨.assistant, reply⟩]) ∧
    (ChatPanel.send env s).renderError = s.renderError := by
  rcases api_cases env s.hook "/api/chat" (ChatPanel.sendOptions (.str (jsTrim s.input))) with
    ⟨d, hd⟩ | ⟨e, he⟩
  · rw [hd] at hbody
    have hne : d ≠ .null := fun hnull => hbody (by rw [hnull])
    obtain ⟨r, hr⟩ := getProp_ok_of_ne_null d "reply" hne
    constructor
    · refine ⟨if truthy? r then r.getD .null else .str (JSON.stringify d), ?_⟩
      simp only [ChatPanel.send, if_neg h, hd, hr]
      simp
    · simp only [ChatPanel.send, if_neg h, hd, hr]
  · constructor
    · refine ⟨.str (ChatPanel.failureText s.hook.error), ?_⟩
      simp only [ChatPanel.send, if_neg h, he]
      simp
    · simp only [ChatPanel.send, if_neg h, he]

/-- C6 (amended), at the input `hello` with a backend that answers `500`. -/
theorem send_appends_user_then_assistant_witness :
    jsTrim Example.chatHello.input ≠ "" ∧
    (api Example.env500 Example.chatHello.hook "/api/chat"
      (ChatPanel.sendOptions (.str (jsTrim Example.chatHello.input)))).2 ≠ .ok .null ∧
    (∃ reply, (ChatPanel.send Example.env500 Example.chatHello).messages =
      Example.chatHello.messages ++
        [⟨.user, .str (jsTrim Example.chatHello.input)⟩, ⟨.assistant, reply⟩]) ∧
    (ChatPanel.send Example.env500 Example.chatHello).renderError =
      Example.chatHello.renderError :=
  ⟨by decide,
    fun hx => Except.noConfusion
      (hx : (Except.error ⟨.Error, "500 Internal Server Error"⟩ : Except Thrown Json) = .ok .null),
    send_appends_user_then_assistant Example.env500 Example.chatHello (by decide)
      (fun hx => Except.noConfusion
        (hx : (Except.error ⟨.Error, "500 Internal Server Error"⟩ : Except Thrown Json) =
          .ok .null))⟩

/-- C7 (what the code does): after a backend answer `500 Internal Server Error`
to the first message, `api` has recorded `500 Internal Server Error`, but the
assistant entry that `send` appends reads the `error` of the render that
created the handler, which is empty, and so shows the fallback text. -/
theorem send_failure_text_is_not_recorded_error :
    (ChatPanel.send Example.env500 Example.chatHello).messages =
      Example.chatHello.messages ++
        [⟨.user, .str "hello"⟩, ⟨.assistant, .str "⚠️ Failed to reach backend"⟩] ∧
    (ChatPanel.send Example.env500 Example.chatHello).hook.error =
      "500 Internal Server Error" ∧
    "⚠️ Failed to reach backend" ≠
      "⚠️ " ++ (ChatPanel.send Example.env500 Example.chatHello).hook.error := by
  refine ⟨by rfl, by rfl, by decide⟩

/-- C8 as stated fails: for the response `{"reply": ""}`, which has a `reply`
field holding a string, the assistant entry is the stringified response and not
the reply. -/
theorem send_empty_reply_is_stringified :
    (Json.obj [("reply", .str "")]).getProp "reply" = .ok (some (.str "")) ∧
    (ChatPanel.send (Example.envReply (.obj [("reply", .str "")])) Example.chatHello).messages =
      Example.chatHello.messages ++
        [⟨.user, .str "hello"⟩, ⟨.assistant, .str "\x7b\"reply\":\"\"\x7d"⟩] ∧
    Json.str "\x7b\"reply\":\"\"\x7d" ≠ Json.str "" := by
  refine ⟨by rfl, by rfl, ?_⟩
  intro h
  exact absurd (Json.str.inj h) (by decide)

/-- C8 (amended): when the call of `send` succeeds with a response that is not
`null`, the assistant entry is the `reply` field whenever that is a non-empty
string, it is the stringified response when the field is absent or is the
empty string, and it is the stringified response only when the field is absent
or falsy. -/
theorem send_success_text (env : Env) (s : ChatState) (data : Json) (reply : Option Json)
    (h : jsTrim s.input ≠ "")
    (hapi : (api env s.hook "/api/chat" (ChatPanel.sendOptions (.str (jsTrim s.input)))).2
      = .ok data)
    (hreply : data.getProp "reply" = .ok reply) :
    ∃ text, (ChatPanel.send env s).messages =
        s.messages ++ [⟨.user, .str (jsTrim s.input)⟩, ⟨.assistant, text⟩] ∧
      (∀ r, reply = some (.str r) → r ≠ "" → text = .str r) ∧
      (reply = none ∨ reply = some (.str "") → text = .str (JSON.stringify data)) ∧
      (text = .str (JSON.stringify data) → truthy? reply = false) := by
  rcases api_cases env s.hook "/api/chat" (ChatPanel.sendOptions (.str (jsTrim s.input))) with
    ⟨d, hd⟩ | ⟨e, he⟩
  swap
  · rw [he] at hapi; cases hapi
  rw [hd] at hapi
  cases hapi
  refine ⟨if truthy? reply then reply.getD .null else .str (JSON.stringify data), ?_, ?_, ?_, ?_⟩
  · simp only [ChatPanel.send, if_neg h, hd, hreply]
    simp
  · intro r hr hne
    subst hr
    simp [truthy?, Json.truthy, hne]
  · rintro (hr | hr) <;> subst hr <;> simp [truthy?, Json.truthy]
  · intro ht
    by_contra hn
    have hn2 : truthy? reply = true := by simpa using hn
    rw [if_pos hn2] at ht
    cases reply with
    | none => simp [truthy?] at hn2
    | some v =>
      simp only [Option.getD_some] at ht
      subst ht
      exact reply_ne_stringify data _ hreply rfl

/-- C8 (amended), at the response `{"reply": "Done"}`. -/
theorem send_success_text_witness :
    jsTrim Example.chatHello.input ≠ "" ∧
    ∃ text, (ChatPanel.send (Example.envReply (.obj [("reply", .str "Done")]))
        Example.chatHello).messages =
        Example.chatHello.messages ++
          [⟨.user, .str (jsTrim Example.chatHello.input)⟩, ⟨.assistant, text⟩] ∧
      (∀ r, some (Json.str "Done") = some (.str r) → r ≠ "" → text = .str r) ∧
      (some (Json.str "Done") = none ∨ some (Json.str "Done") = some (.str "") →
        text = .str (JSON.stringify (.obj [("reply", .str "Done")]))) ∧
      (text = .str (JSON.stringify (.obj [("reply", .str "Done")])) →
        truthy? (some (Json.str "Done")) = false) :=
  ⟨by decide,
    send_success_text (Example.envReply (.obj [("reply", .str "Done")])) Example.chatHello
      (.obj [("reply", .str "Done")]) (some (.str "Done")) (by decide) rfl rfl⟩

/-- C9 as stated fails: the form `{user_id: "1.5", name: "Bob"}` passes the
guard and the POST body carries `user_id` 1.5, which is not an integer. -/
theorem add_sends_fractional_user_id :
    ¬ ((⟨"1.5", "Bob"⟩ : UserForm).user_id = "" ∨ (⟨"1.5", "Bob"⟩ : UserForm).name = "") ∧
    (UsersPanel.add Example.envLists (Example.usersWith ⟨"1.5", "Bob"⟩)).1.hook.calls =
      [⟨"/api/users", some "POST", some "\x7b\"user_id\":1.5,\"name\":\"Bob\"\x7d"⟩,
        ⟨"/api/users", none, none⟩] ∧
    Number "1.5" = .fin false (3 * 2 ^ 51) (-52) ∧
    (Number "1.5").isInteger = false ∧
    (Number "1.5").toInt? = none := by
  refine ⟨by decide, by rfl, by decide, by decide, by decide⟩

/-- C9 (amended): for a form that passes the guard, `add` first sends the POST
whose body is the JSON text of `{user_id: Number(form.user_id), name}`.  When
the text of `form.user_id`, read as a numeric literal, has an integer value,
that number is an integer unless it overflows, and it is exactly that integer
when the magnitude is below `2^53`.  In particular, for white space, an
optional sign, a run of decimal digits of value `v < 2^53` and white space,
the number sent is the integer `v` with that sign. -/
theorem add_sends_Number_of_user_id (env : Env) (u : UsersState)
    (hu : ¬ (u.form.user_id = "" ∨ u.form.name = "")) :
    (∃ rest, (UsersPanel.add env u).1.hook.calls = u.hook.calls ++
      ⟨env.BASE_URL ++ "/api/users", some "POST", some (JSON.stringify
        (.obj [("user_id", .num (Number u.form.user_id)), ("name", .str u.form.name)]))⟩
        :: rest) ∧
    (∀ N : Int, (parseNumeric (jsTrimChars u.form.user_id.data)).toInt? = some N →
      ((Number u.form.user_id).isFinite = true → (Number u.form.user_id).isInteger = true) ∧
      (N.natAbs < 2 ^ 53 → (Number u.form.user_id).toInt? = some N)) ∧
    (∀ pre sign ds post : List Char,
      u.form.user_id.data = pre ++ (sign ++ ds) ++ post →
      (∀ c ∈ pre, isJsWhiteSpace c = true) → (∀ c ∈ post, isJsWhiteSpace c = true) →
      (sign = [] ∨ sign = ['+'] ∨ sign = ['-']) →
      ds ≠ [] → (∀ c ∈ ds, 48 ≤ c.toNat ∧ c.toNat ≤ 57) →
      ds.foldl (fun acc c => acc * 10 + (c.toNat - 48)) 0 < 2 ^ 53 →
      (Number u.form.user_id).toInt? =
        some (if sign = ['-'] then
            -((ds.foldl (fun acc c => acc * 10 + (c.toNat - 48)) 0 : Nat) : Int)
          else ((ds.foldl (fun acc c => acc * 10 + (c.toNat - 48)) 0 : Nat) : Int)) ∧
      (Number u.form.user_id).isInteger = true) := by
  refine ⟨?_, ?_, ?_⟩
  · rcases api_cases env u.hook "/api/users" (UsersPanel.addOptions u.form) with
      ⟨d, hd⟩ | ⟨e, he⟩
    · simp only [UsersPanel.add, if_neg hu, hd, UsersPanel.load]
      rcases api_cases env
        { loading := false, error := "",
          calls := u.hook.calls ++ [apiRequest env "/api/users" (UsersPanel.addOptions u.form)] }
        "/api/users" {} with ⟨d2, hd2⟩ | ⟨e2, he2⟩
      · refine ⟨[apiRequest env "/api/users" {}], ?_⟩
        simp only [hd2]
        split <;> simp [apiRequest_eq, UsersPanel.addOptions]
      · refine ⟨[apiRequest env "/api/users" {}], ?_⟩
        simp only [he2]
        simp [apiRequest_eq, UsersPanel.addOptions]
    · refine ⟨[], ?_⟩
      simp only [UsersPanel.add, if_neg hu, he]
      simp [apiRequest_eq, UsersPanel.addOptions]
  · intro N hN
    exact Number_of_integer_literal u.form.user_id N hN
  · intro pre sign ds post hdata hpre hpost hs hne hcodes hlt
    have hd : ∀ c ∈ ds, isDigitOf 10 c = true := fun c hc =>
      isDigitOf_of_code c (hcodes c hc).1 (hcodes c hc).2
    have hlit := parseNumeric_signed_digits pre post ds sign hpre hpost hne hd hs
    rw [← hdata] at hlit
    have hInt : (parseNumeric (jsTrimChars u.form.user_id.data)).toInt? =
        some (if sign = ['-'] then
            -((ds.foldl (fun acc c => acc * 10 + (c.toNat - 48)) 0 : Nat) : Int)
          else ((ds.foldl (fun acc c => acc * 10 + (c.toNat - 48)) 0 : Nat) : Int)) := by
      rw [hlit]
      by_cases hm : sign = ['-'] <;> simp [NumericLiteral.toInt?, hm]
    have hboth := Number_of_integer_literal u.form.user_id _ hInt
    have habs : (if sign = ['-'] then
            -((ds.foldl (fun acc c => acc * 10 + (c.toNat - 48)) 0 : Nat) : Int)
          else ((ds.foldl (fun acc c => acc * 10 + (c.toNat - 48)) 0 : Nat) : Int)).natAbs
        = ds.foldl (fun acc c => acc * 10 + (c.toNat - 48)) 0 := by
      by_cases hm : sign = ['-'] <;> simp [hm]
    have hexact := hboth.2 (by rw [habs]; exact hlt)
    refine ⟨hexact, ?_⟩
    revert hexact
    cases hx : Number u.form.user_id with
    | nan => simp [JsNum.toInt?]
    | inf s => simp [JsNum.toInt?]
    | fin s m e =>
      intro _
      have := hboth.1
      rw [hx] at this
      exact this rfl

/-- C9 (amended), at the form `{user_id: " -42 ", name: "Bob"}`: the body sent
carries `-42`. -/
theorem add_sends_Number_of_user_id_witness :
    ¬ ((Example.usersWith ⟨" -42 ", "Bob"⟩).form.user_id = "" ∨
        (Example.usersWith ⟨" -42 ", "Bob"⟩).form.name = "") ∧
    (UsersPanel.add Example.envLists (Example.usersWith ⟨" -42 ", "Bob"⟩)).1.hook.calls =
      [⟨"/api/users", some "POST", some "\x7b\"user_id\":-42,\"name\":\"Bob\"\x7d"⟩,
        ⟨"/api/users", none, none⟩] ∧
    (Number " -42 ").toInt? = some (-42) ∧
    (Number " -42 ").isInteger = true :=
  ⟨by decide, by rfl,
    (add_sends_Number_of_user_id Example.envLists (Example.usersWith ⟨" -42 ", "Bob"⟩)
      (by decide)).2.2 [' '] ['-'] ['4', '2'] [' '] rfl (by decide) (by decide)
      (Or.inr (Or.inr rfl)) (by decide) (by decide) (by decide)⟩

/-- C10: with a form that passes the guard, when the POST fails the handler
throws that failure, the form and the cache are what they were and the POST is
the only request sent; when the POST succeeds the form is cleared. -/
theorem create_clears_form_only_on_success (env : Env) (t : TicketsState) (u : UsersState)
    (ht : ¬ (t.form.title = "" ∨ t.form.assignee = ""))
    (hu : ¬ (u.form.user_id = "" ∨ u.form.name = "")) :
    (∀ e, (api env t.hook "/api/tickets" (TicketsPanel.createOptions t.form)).2 = .error e →
      (TicketsPanel.create env t).2 = .error e ∧
      (TicketsPanel.create env t).1.form = t.form ∧
      (TicketsPanel.create env t).1.tickets = t.tickets ∧
      (TicketsPanel.create env t).1.hook.calls = t.hook.calls ++
        [⟨env.BASE_URL ++ "/api/tickets", some "POST", (TicketsPanel.createOptions t.form).body⟩]) ∧
    (∀ d, (api env t.hook "/api/tickets" (TicketsPanel.createOptions t.form)).2 = .ok d →
      (TicketsPanel.create env t).1.form = ⟨"", ""⟩) ∧
    (∀ e, (api env u.hook "/api/users" (UsersPanel.addOptions u.form)).2 = .error e →
      (UsersPanel.add env u).2 = .error e ∧
      (UsersPanel.add env u).1.form = u.form ∧
      (UsersPanel.add env u).1.users = u.users ∧
      (UsersPanel.add env u).1.hook.calls = u.hook.calls ++
        [⟨env.BASE_URL ++ "/api/users", some "POST", (UsersPanel.addOptions u.form).body⟩]) ∧
    (∀ d, (api env u.hook "/api/users" (UsersPanel.addOptions u.form)).2 = .ok d →
      (UsersPanel.add env u).1.form = ⟨"", ""⟩) := by
  have hreq : ∀ (p : String) (o : Options), apiRequest env p o =
      ⟨env.BASE_URL ++ p, o.method, o.body⟩ := by
    intro p o
    by_cases hb : env.BASE_URL = "" <;> simp [apiRequest, hb]
  refine ⟨?_, ?_, ?_, ?_⟩
  · intro e he
    rcases api_cases env t.hook "/api/tickets" (TicketsPanel.createOptions t.form)
      with ⟨d, hd⟩ | ⟨e', he'⟩
    · rw [hd] at he; cases he
    · rw [he'] at he
      cases he
      simp only [TicketsPanel.create, if_neg ht, he', hreq]
      simp [TicketsPanel.createOptions]
  · intro d hd
    rcases api_cases env t.hook "/api/tickets" (TicketsPanel.createOptions t.form)
      with ⟨d', hd'⟩ | ⟨e', he'⟩
    · simp only [TicketsPanel.create, if_neg ht, hd', TicketsPanel.load]
      split
      · rfl
      · split <;> rfl
    · rw [he'] at hd; cases hd
  · intro e he
    rcases api_cases env u.hook "/api/users" (UsersPanel.addOptions u.form)
      with ⟨d, hd⟩ | ⟨e', he'⟩
    · rw [hd] at he; cases he
    · rw [he'] at he
      cases he
      simp only [UsersPanel.add, if_neg hu, he', hreq]
      simp [UsersPanel.addOptions]
  · intro d hd
    rcases api_cases env u.hook "/api/users" (UsersPanel.addOptions u.form)
      with ⟨d', hd'⟩ | ⟨e', he'⟩
    · simp only [UsersPanel.add, if_neg hu, hd', UsersPanel.load]
      split
      · rfl
      · split <;> rfl
    · rw [he'] at hd; cases hd

/-- C10, at filled forms with a backend that answers `500` to the POST. -/
theorem create_clears_form_only_on_success_witness :
    ¬ ((Example.ticketsWith ⟨"Login", "Alice"⟩).form.title = "" ∨
        (Example.ticketsWith ⟨"Login", "Alice"⟩).form.assignee = "") ∧
    ¬ ((Example.usersWith ⟨"7", "Bob"⟩).form.user_id = "" ∨
        (Example.usersWith ⟨"7", "Bob"⟩).form.name = "") ∧
    (TicketsPanel.create Example.env500 (Example.ticketsWith ⟨"Login", "Alice"⟩)).1.form =
      ⟨"Login", "Alice"⟩ ∧
    (TicketsPanel.create Example.env500 (Example.ticketsWith ⟨"Login", "Alice"⟩)).1.tickets =
      .arr [Example.ticket1] ∧
    (UsersPanel.add Example.env500 (Example.usersWith ⟨"7", "Bob"⟩)).1.form = ⟨"7", "Bob"⟩ ∧
    (TicketsPanel.create Example.envLists (Example.ticketsWith ⟨"Login", "Alice"⟩)).1.form =
      ⟨"", ""⟩ ∧
    (UsersPanel.add Example.envLists (Example.usersWith ⟨"7", "Bob"⟩)).1.form = ⟨"", ""⟩ :=
  ⟨by decide, by decide,
    ((create_clears_form_only_on_success Example.env500 (Example.ticketsWith ⟨"Login", "Alice"⟩)
      (Example.usersWith ⟨"7", "Bob"⟩) (by decide) (by decide)).1
      ⟨.Error, "500 Internal Server Error"⟩ rfl).2.1,
    ((create_clears_form_only_on_success Example.env500 (Example.ticketsWith ⟨"Login", "Alice"⟩)
      (Example.usersWith ⟨"7", "Bob"⟩) (by decide) (by decide)).1
      ⟨.Error, "500 Internal Server Error"⟩ rfl).2.2.1,
    ((create_clears_form_only_on_success Example.env500 (Example.ticketsWith ⟨"Login", "Alice"⟩)
      (Example.usersWith ⟨"7", "Bob"⟩) (by decide) (by decide)).2.2.1
      ⟨.Error, "500 Internal Server Error"⟩ rfl).2.1,
    (create_clears_form_only_on_success Example.envLists
      (Example.ticketsWith ⟨"Login", "Alice"⟩) (Example.usersWith ⟨"7", "Bob"⟩) (by decide)
      (by decide)).2.1 _ rfl,
    (create_clears_form_only_on_success Example.envLists
      (Example.ticketsWith ⟨"Login", "Alice"⟩) (Example.usersWith ⟨"7", "Bob"⟩) (by decide)
      (by decide)).2.2.2 _ rfl⟩

end MiniJira
